import Mathlib

/-!
# Recoil motor controller: the current (innermost) control loop

Shallow embedding of
`firmware/Recoil-Motor-Controller-G431-DRV8350RS/Core/Src/current_controller.c`.

Modelling conventions.

* A C `float` is an element of an arbitrary linearly ordered field `α`
  (exact arithmetic: no rounding, no NaN, no infinities).  Every definition is
  computable and runs on `ℚ`; statements that need the value of a square root
  are made on `ℝ` with `Real.sqrt`.
* `*controller` is a record that `CurrentController_update` maps to the record
  after the call.
* `foc_math.h` (the four FOC transforms and `clampf`) and
  `current_controller.h` (the record's declaration) are not among the sources.
  The transforms are parameters of the model (`FocMath`), `sqrtf` of libm is a
  parameter as well, the record has the fields `current_controller.c` reads or
  writes, and `clampf` is the standard clamp.
-/

set_option linter.unusedSectionVars false

namespace Recoil

/-- The `Mode` enumeration of `motor_controller_conf.h` (G431-DRV8350RS). -/
inductive Mode where
  | MODE_DISABLED
  | MODE_IDLE
  | MODE_CALIBRATION
  | MODE_CURRENT
  | MODE_TORQUE
  | MODE_VELOCITY
  | MODE_POSITION
  | MODE_VABC_OVERRIDE
  | MODE_VALPHABETA_OVERRIDE
  | MODE_VQD_OVERRIDE
  | MODE_IQD_OVERRIDE
  | MODE_DEBUG
  deriving DecidableEq, Repr

open Mode

/-- The `CurrentController` record: the fields `current_controller.c` uses. -/
structure CurrentController (α : Type) where
  current_filter_alpha : α
  i_q_kp : α
  i_q_ki : α
  i_d_kp : α
  i_d_ki : α
  i_a_measured : α
  i_b_measured : α
  i_c_measured : α
  i_alpha_measured : α
  i_beta_measured : α
  i_q_measured : α
  i_d_measured : α
  i_q_target : α
  i_d_target : α
  i_q_setpoint : α
  i_d_setpoint : α
  i_q_integrator : α
  i_d_integrator : α
  v_q_setpoint : α
  v_d_setpoint : α
  v_alpha_setpoint : α
  v_beta_setpoint : α
  v_a_setpoint : α
  v_b_setpoint : α
  v_c_setpoint : α
  deriving Repr

/-- Modelled from the spec: the FOC math primitives of `foc_math.h`, which is
not among the sources.  Section 4.1 of the specification describes them as
stateless pure functions of their value arguments; each returns what the C
function stores through its leading output pointers, in that order. -/
structure FocMath (α : Type) where
  /-- Clarke transform: `(i_a, i_b, i_c) ↦ (i_alpha, i_beta)`. -/
  FOC_clarkTransform : α → α → α → α × α
  /-- Park transform: `(i_alpha, i_beta, sin_theta, cos_theta) ↦ (i_q, i_d)`. -/
  FOC_parkTransform : α → α → α → α → α × α
  /-- Inverse Park transform: `(v_q, v_d, sin_theta, cos_theta) ↦ (v_alpha, v_beta)`. -/
  FOC_invParkTransform : α → α → α → α → α × α
  /-- Inverse Clarke transform with SVPWM: `(v_alpha, v_beta) ↦ (v_a, v_b, v_c)`. -/
  FOC_invClarkSVPWM : α → α → α × α × α

section Model

variable {α : Type} [LinearOrderedField α]

/-- Modelled from the spec: `clampf` of `foc_math.h` (not among the sources),
the standard clamp of `value` to `[lo, hi]`. -/
def clampf (value lo hi : α) : α :=
  if value > hi then hi else if value < lo then lo else value

/-- The function `CurrentController_init` (current_controller.c, lines 4-15). -/
def CurrentController_init (c : CurrentController α) : CurrentController α :=
  { c with
    current_filter_alpha := 0.2
    i_q_kp := 30
    i_q_ki := 0.01
    i_d_kp := 30
    i_d_ki := 0.01
    i_q_measured := 0
    i_d_measured := 0 }

/-- Lines 18-36 of `CurrentController_update`: Clarke transform into the
record, Park transform into the locals `i_q`, `i_d`, then the two assignments
to `i_q_measured` and `i_d_measured`. -/
def CurrentController_update_measure (F : FocMath α) (c : CurrentController α)
    (sin_theta cos_theta : α) : CurrentController α :=
  let ab := F.FOC_clarkTransform c.i_a_measured c.i_b_measured c.i_c_measured
  let c1 := { c with i_alpha_measured := ab.1, i_beta_measured := ab.2 }
  let qd := F.FOC_parkTransform c1.i_alpha_measured c1.i_beta_measured sin_theta cos_theta
  let i_q := qd.1
  let i_d := qd.2
  let c2 := { c1 with i_q_measured := c1.current_filter_alpha * (i_q - c1.i_q_measured) }
  { c2 with i_d_measured := c2.current_filter_alpha * (i_d - c2.i_d_measured) }

/-- Lines 38-49 of `CurrentController_update`: setpoints and integrators. -/
def CurrentController_update_integrate (c : CurrentController α) (mode : Mode) :
    CurrentController α :=
  if mode ≠ MODE_IQD_OVERRIDE then
    let c1 := { c with i_q_setpoint := c.i_q_target - c.i_q_measured }
    let c2 := { c1 with i_d_setpoint := c1.i_d_target - c1.i_d_measured }
    let c3 := { c2 with
      i_q_integrator := clampf (c2.i_q_integrator + c2.i_q_ki * c2.i_q_setpoint) (-5) 5 }
    { c3 with
      i_d_integrator := clampf (c3.i_d_integrator + c3.i_d_ki * c3.i_d_setpoint) (-5) 5 }
  else
    { c with i_q_integrator := 0, i_d_integrator := 0 }

/-- Lines 51-56 of `CurrentController_update`: the commanded voltage. -/
def CurrentController_update_voltage (c : CurrentController α) (mode : Mode) :
    CurrentController α :=
  if mode ≠ MODE_VQD_OVERRIDE then
    let c1 := { c with v_q_setpoint := c.i_q_kp * c.i_q_setpoint + c.i_q_integrator }
    { c1 with v_d_setpoint := c1.i_d_kp * c1.i_d_setpoint + c1.i_d_integrator }
  else
    c

/-- Lines 18-56 of `CurrentController_update`: the record as it stands just
before the block commented `// clamp voltage`. -/
def CurrentController_update_preclamp (F : FocMath α) (c : CurrentController α)
    (mode : Mode) (sin_theta cos_theta : α) : CurrentController α :=
  CurrentController_update_voltage
    (CurrentController_update_integrate
      (CurrentController_update_measure F c sin_theta cos_theta) mode) mode

/-- Lines 58-71 of `CurrentController_update`: the block commented
`// clamp voltage`. -/
def CurrentController_update_clamp (sqrtf : α → α) (c : CurrentController α)
    (v_bus : α) : CurrentController α :=
  if v_bus > 0 then
    let v_max_sq := v_bus * v_bus * 1.15
    let v_norm := (c.v_q_setpoint * c.v_q_setpoint) + (c.v_d_setpoint * c.v_d_setpoint)
    if v_norm > v_max_sq then
      let k := sqrtf |v_norm / v_max_sq|
      let c1 := { c with v_q_setpoint := c.v_q_setpoint * k }
      { c1 with v_d_setpoint := c1.v_d_setpoint * k }
    else
      c
  else
    c

/-- Lines 73-90 of `CurrentController_update`: inverse Park and inverse
Clarke / SVPWM, each behind its mode test. -/
def CurrentController_update_output (F : FocMath α) (c : CurrentController α)
    (mode : Mode) (sin_theta cos_theta : α) : CurrentController α :=
  let c1 :=
    if mode ≠ MODE_VALPHABETA_OVERRIDE ∧ mode ≠ MODE_CALIBRATION then
      let ab := F.FOC_invParkTransform c.v_q_setpoint c.v_d_setpoint sin_theta cos_theta
      { c with v_alpha_setpoint := ab.1, v_beta_setpoint := ab.2 }
    else
      c
  if mode ≠ MODE_VABC_OVERRIDE then
    let abc := F.FOC_invClarkSVPWM c1.v_alpha_setpoint c1.v_beta_setpoint
    { c1 with v_a_setpoint := abc.1, v_b_setpoint := abc.2.1, v_c_setpoint := abc.2.2 }
  else
    c1

/-- The function `CurrentController_update` (current_controller.c, lines 17-91): its
five blocks in the order of the source. -/
def CurrentController_update (F : FocMath α) (sqrtf : α → α) (c : CurrentController α)
    (mode : Mode) (sin_theta cos_theta v_bus : α) : CurrentController α :=
  CurrentController_update_output F
    (CurrentController_update_clamp sqrtf
      (CurrentController_update_preclamp F c mode sin_theta cos_theta) v_bus)
    mode sin_theta cos_theta

/-- A zero-initialised `CurrentController` record (static storage in C). -/
def CurrentController.zeroed : CurrentController α :=
  { current_filter_alpha := 0, i_q_kp := 0, i_q_ki := 0, i_d_kp := 0, i_d_ki := 0,
    i_a_measured := 0, i_b_measured := 0, i_c_measured := 0,
    i_alpha_measured := 0, i_beta_measured := 0, i_q_measured := 0, i_d_measured := 0,
    i_q_target := 0, i_d_target := 0, i_q_setpoint := 0, i_d_setpoint := 0,
    i_q_integrator := 0, i_d_integrator := 0, v_q_setpoint := 0, v_d_setpoint := 0,
    v_alpha_setpoint := 0, v_beta_setpoint := 0,
    v_a_setpoint := 0, v_b_setpoint := 0, v_c_setpoint := 0 }

/-- Modelled from the spec: one instance of the FOC primitives of `foc_math.h`
(not among the sources), after section 4.1 of the specification: Clarke with
`i_alpha = i_a`, `i_beta = (i_b - i_c)/√3`; Park as the rotation by the
electrical angle; inverse Park as its algebraic inverse; inverse Clarke with
the min-max common-mode shift of space-vector modulation.  The theorems are
proved for every `FocMath`; this instance serves to evaluate the controller at
concrete inputs. -/
def FocMath.standard (sqrtf : α → α) : FocMath α where
  FOC_clarkTransform := fun i_a i_b i_c => (i_a, (i_b - i_c) / sqrtf 3)
  FOC_parkTransform := fun i_alpha i_beta sin_theta cos_theta =>
    (-(i_alpha * sin_theta) + i_beta * cos_theta, i_alpha * cos_theta + i_beta * sin_theta)
  FOC_invParkTransform := fun v_q v_d sin_theta cos_theta =>
    (-(v_q * sin_theta) + v_d * cos_theta, v_q * cos_theta + v_d * sin_theta)
  FOC_invClarkSVPWM := fun v_alpha v_beta =>
    let v_a := v_alpha
    let v_b := -(v_alpha / 2) + sqrtf 3 / 2 * v_beta
    let v_c := -(v_alpha / 2) - sqrtf 3 / 2 * v_beta
    let v_n := (max (max v_a v_b) v_c + min (min v_a v_b) v_c) / 2
    (v_a - v_n, v_b - v_n, v_c - v_n)

/-- Scenario of the specification: after `CurrentController_init`, a request
`(v_q, v_d) = (20, 20)` is held in `MODE_VQD_OVERRIDE` (bus at 12 V). -/
def scenario_overmodulation : CurrentController α :=
  { CurrentController_init CurrentController.zeroed with
    v_q_setpoint := 20, v_d_setpoint := 20 }

/-- The raw rotor-frame currents `(i_q, i_d)` of a tick: the locals that
`FOC_parkTransform` fills in `CurrentController_update` (lines 18-33). -/
def CurrentController_raw_iqd (F : FocMath α) (c : CurrentController α)
    (sin_theta cos_theta : α) : α × α :=
  F.FOC_parkTransform
    (F.FOC_clarkTransform c.i_a_measured c.i_b_measured c.i_c_measured).1
    (F.FOC_clarkTransform c.i_a_measured c.i_b_measured c.i_c_measured).2
    sin_theta cos_theta

/-- A later tick of the filter: default gains, and `1` left in both filtered
currents by the ticks before. -/
def scenario_filter : CurrentController α :=
  { CurrentController_init CurrentController.zeroed with
    i_q_measured := 1, i_d_measured := 1 }

/-- Scenario of the specification: default gains, `i_q_target` stepped from 0
to 1 with the filtered current and the integrators at 0. -/
def scenario_step : CurrentController α :=
  { CurrentController_init CurrentController.zeroed with i_q_target := 1 }

/-- Default gains, no current, no target, and `1` left in the q integrator by
the closed-loop ticks before the mode is set to `MODE_DISABLED`. -/
def scenario_disable : CurrentController α :=
  { CurrentController_init CurrentController.zeroed with i_q_integrator := 1 }

/-- Default gains with externally written phase voltages `(1, 2, 3)`. -/
def scenario_vabc : CurrentController α :=
  { CurrentController_init CurrentController.zeroed with
    v_a_setpoint := 1, v_b_setpoint := 2, v_c_setpoint := 3 }

/-- Default gains with an externally written `(v_q, v_d) = (3, 4)`. -/
def scenario_vqd : CurrentController α :=
  { CurrentController_init CurrentController.zeroed with
    v_q_setpoint := 3, v_d_setpoint := 4 }

/-- Default gains with externally written current setpoints `(0.1, 0)` and
integrators left at `(2, -3)` by the ticks before. -/
def scenario_iqd : CurrentController α :=
  { CurrentController_init CurrentController.zeroed with
    i_q_setpoint := 0.1, i_d_setpoint := 0, i_q_integrator := 2, i_d_integrator := -3 }

end Model

/-! ## The configuration headers

`motor_controller_conf.h` of the two firmware variants (B-G431B-ESC1 and
G431-DRV8350RS) and `motor_profiles.h` of B-G431B-ESC1.  A C `enum` is written
down as the list of its enumerators in source order, each with its explicit
initialiser when it has one; `enumValues` gives them their values the way C
does.  The inductive type `Mode` above is the G431-DRV8350RS enumeration, the
one `current_controller.c` is compiled against. -/

/-- The values of the enumerators of a C `enum` declaration: an enumerator
with an initialiser has that value, one without has the value of the
enumerator before it plus one; `next` is the value an enumerator without
initialiser gets at this point (0 at the start of a declaration). -/
def enumValues : List (String × Option Nat) → Nat → List (String × Nat)
  | [], _ => []
  | (n, some v) :: rest, _ => (n, v) :: enumValues rest (v + 1)
  | (n, none) :: rest, next => (n, next) :: enumValues rest (next + 1)

/-- The numeric code of a `Mode` (G431-DRV8350RS, motor_controller_conf.h,
lines 96-115). -/
def Mode.code : Mode → Nat
  | MODE_DISABLED => 0x00
  | MODE_IDLE => 0x01
  | MODE_CALIBRATION => 0x05
  | MODE_CURRENT => 0x10
  | MODE_TORQUE => 0x11
  | MODE_VELOCITY => 0x12
  | MODE_POSITION => 0x13
  | MODE_VABC_OVERRIDE => 0x20
  | MODE_VALPHABETA_OVERRIDE => 0x21
  | MODE_VQD_OVERRIDE => 0x22
  | MODE_IQD_OVERRIDE => 0x23
  | MODE_DEBUG => 0x80

/-- The constructors of `Mode`, in the order of the header. -/
def Mode.all : List Mode :=
  [ MODE_DISABLED, MODE_IDLE, MODE_CALIBRATION, MODE_CURRENT, MODE_TORQUE, MODE_VELOCITY,
    MODE_POSITION, MODE_VABC_OVERRIDE, MODE_VALPHABETA_OVERRIDE, MODE_VQD_OVERRIDE,
    MODE_IQD_OVERRIDE, MODE_DEBUG]

namespace DRV8350RS

/-- The macro `DEVICE_CAN_ID` (G431-DRV8350RS, motor_controller_conf.h, line 13). -/
def DEVICE_CAN_ID : Nat := 1

/-- The declaration of `enum Mode` (G431-DRV8350RS, motor_controller_conf.h,
lines 96-115). -/
def Mode_decl : List (String × Option Nat) :=
  [("MODE_DISABLED", some 0x00),
   ("MODE_IDLE", some 0x01),
   ("MODE_CALIBRATION", some 0x05),
   ("MODE_CURRENT", some 0x10),
   ("MODE_TORQUE", some 0x11),
   ("MODE_VELOCITY", some 0x12),
   ("MODE_POSITION", some 0x13),
   ("MODE_VABC_OVERRIDE", some 0x20),
   ("MODE_VALPHABETA_OVERRIDE", some 0x21),
   ("MODE_VQD_OVERRIDE", some 0x22),
   ("MODE_IQD_OVERRIDE", some 0x23),
   ("MODE_DEBUG", some 0x80)]

/-- The enumerators of `Mode` with their values (G431-DRV8350RS). -/
def Mode_enum : List (String × Nat) := enumValues Mode_decl 0

/-- The declaration of `enum ErrorCode` (G431-DRV8350RS,
motor_controller_conf.h, lines 117-128): only the first two enumerators have
an initialiser. -/
def ErrorCode_decl : List (String × Option Nat) :=
  [("ERROR_NO_ERROR", some 0x00),
   ("ERROR_GENERAL", some 0x01),
   ("ERROR_INVALID_MODE", none),
   ("ERROR_INVALID_MODE_SWITCH", none),
   ("ERROR_HEARTBEAT_TIMEOUT", none),
   ("ERROR_OVER_VOLTAGE", none),
   ("ERROR_OVER_CURRENT", none),
   ("ERROR_OVER_TEMPERATURE", none),
   ("ERROR_CAN_TX_FAULT", none),
   ("ERROR_I2C_FAULT", none)]

/-- The enumerators of `ErrorCode` with their values (G431-DRV8350RS). -/
def ErrorCode_enum : List (String × Nat) := enumValues ErrorCode_decl 0

end DRV8350RS

namespace ESC1

/-- The macro `DEVICE_CAN_ID` (B-G431B-ESC1, motor_controller_conf.h, line 28). -/
def DEVICE_CAN_ID : Nat := 2

/-- The declaration of `enum Mode` (B-G431B-ESC1, motor_controller_conf.h,
lines 126-147). -/
def Mode_decl : List (String × Option Nat) :=
  [("MODE_DISABLED", some 0x00),
   ("MODE_IDLE", some 0x01),
   ("MODE_DAMPING", some 0x02),
   ("MODE_CALIBRATION", some 0x05),
   ("MODE_CURRENT", some 0x10),
   ("MODE_TORQUE", some 0x11),
   ("MODE_VELOCITY", some 0x12),
   ("MODE_POSITION", some 0x13),
   ("MODE_VABC_OVERRIDE", some 0x20),
   ("MODE_VALPHABETA_OVERRIDE", some 0x21),
   ("MODE_VQD_OVERRIDE", some 0x22),
   ("MODE_DEBUG", some 0x80)]

/-- The enumerators of `Mode` with their values (B-G431B-ESC1). -/
def Mode_enum : List (String × Nat) := enumValues Mode_decl 0

/-- The declaration of `enum ErrorCode` (B-G431B-ESC1, motor_controller_conf.h,
lines 152-167). -/
def ErrorCode_decl : List (String × Option Nat) :=
  [("ERROR_NO_ERROR", some 0b0000000000000000),
   ("ERROR_GENERAL", some 0b0000000000000001),
   ("ERROR_ESTOP", some 0b0000000000000010),
   ("ERROR_INITIALIZATION_ERROR", some 0b0000000000000100),
   ("ERROR_CALIBRATION_ERROR", some 0b0000000000001000),
   ("ERROR_POWERSTAGE_ERROR", some 0b0000000000010000),
   ("ERROR_INVALID_MODE", some 0b0000000000100000),
   ("ERROR_WATCHDOG_TIMEOUT", some 0b0000000001000000),
   ("ERROR_OVER_VOLTAGE", some 0b0000000010000000),
   ("ERROR_OVER_CURRENT", some 0b0000000100000000),
   ("ERROR_OVER_TEMPERATURE", some 0b0000001000000000),
   ("ERROR_CAN_RX_FAULT", some 0b0000010000000000),
   ("ERROR_CAN_TX_FAULT", some 0b0000100000000000),
   ("ERROR_I2C_FAULT", some 0b0001000000000000)]

/-- The enumerators of `ErrorCode` with their values (B-G431B-ESC1). -/
def ErrorCode_enum : List (String × Nat) := enumValues ErrorCode_decl 0

/-- The macros a motor profile of `motor_profiles.h` defines. -/
structure MotorProfile where
  MOTOR_POLE_PAIRS : Nat
  MOTOR_KV_RATING : Nat
  MOTOR_PHASE_RESISTANCE : ℚ
  MOTOR_PHASE_INDUCTANCE : ℚ
  MOTOR_CALIBRATION_CURRENT : Nat

/-- The profile under `#ifdef MOTORPROFILE_MAD_M6C12_150KV` (lines 16-22). -/
def MOTORPROFILE_MAD_M6C12_150KV : MotorProfile :=
  { MOTOR_POLE_PAIRS := 14
    MOTOR_KV_RATING := 150
    MOTOR_PHASE_RESISTANCE := 0.05735062549544696
    MOTOR_PHASE_INDUCTANCE := 3.325681588015225e-05
    MOTOR_CALIBRATION_CURRENT := 5 }

/-- The profile under `#ifdef MOTORPROFILE_MAD_5010_110KV` (lines 24-30). -/
def MOTORPROFILE_MAD_5010_110KV : MotorProfile :=
  { MOTOR_POLE_PAIRS := 14
    MOTOR_KV_RATING := 110
    MOTOR_PHASE_RESISTANCE := 0.21210899547699139
    MOTOR_PHASE_INDUCTANCE := 0.0001253253134958695
    MOTOR_CALIBRATION_CURRENT := 3 }

/-- The profile under `#ifdef MOTORPROFILE_MAD_5010_310KV` (lines 32-38). -/
def MOTORPROFILE_MAD_5010_310KV : MotorProfile :=
  { MOTOR_POLE_PAIRS := 14
    MOTOR_KV_RATING := 370
    MOTOR_PHASE_RESISTANCE := 0.05735062549544696
    MOTOR_PHASE_INDUCTANCE := 3.325681588015225e-05
    MOTOR_CALIBRATION_CURRENT := 5 }

/-- The profile under `#ifdef MOTORPROFILE_MAD_5010_370KV` (lines 40-46), the
one `motor_controller_conf.h` selects (line 73). -/
def MOTORPROFILE_MAD_5010_370KV : MotorProfile :=
  { MOTOR_POLE_PAIRS := 14
    MOTOR_KV_RATING := 370
    MOTOR_PHASE_RESISTANCE := 0.03000304860153151
    MOTOR_PHASE_INDUCTANCE := 1.0717319302328058e-05
    MOTOR_CALIBRATION_CURRENT := 5 }

/-- The four profiles of `motor_profiles.h`, in source order. -/
def motor_profiles : List MotorProfile :=
  [MOTORPROFILE_MAD_M6C12_150KV, MOTORPROFILE_MAD_5010_110KV, MOTORPROFILE_MAD_5010_310KV,
    MOTORPROFILE_MAD_5010_370KV]

end ESC1

/-! ## Stage lemmas -/

section Lemmas

variable {α : Type} [LinearOrderedField α]

theorem clampf_mem (x lo hi : α) (h : lo ≤ hi) :
    lo ≤ clampf x lo hi ∧ clampf x lo hi ≤ hi := by
  unfold clampf
  split_ifs with h1 h2
  · exact ⟨h, le_rfl⟩
  · exact ⟨le_rfl, h⟩
  · exact ⟨not_lt.mp h2, not_lt.mp h1⟩

/-! ### Frame of each stage: the fields a stage does not assign -/

@[simp] theorem measure_keeps_current_filter_alpha (F : FocMath α) (c : CurrentController α) (s co : α) :
    (CurrentController_update_measure F c s co).current_filter_alpha = c.current_filter_alpha := rfl

@[simp] theorem measure_keeps_i_q_kp (F : FocMath α) (c : CurrentController α) (s co : α) :
    (CurrentController_update_measure F c s co).i_q_kp = c.i_q_kp := rfl

@[simp] theorem measure_keeps_i_q_ki (F : FocMath α) (c : CurrentController α) (s co : α) :
    (CurrentController_update_measure F c s co).i_q_ki = c.i_q_ki := rfl

@[simp] theorem measure_keeps_i_d_kp (F : FocMath α) (c : CurrentController α) (s co : α) :
    (CurrentController_update_measure F c s co).i_d_kp = c.i_d_kp := rfl

@[simp] theorem measure_keeps_i_d_ki (F : FocMath α) (c : CurrentController α) (s co : α) :
    (CurrentController_update_measure F c s co).i_d_ki = c.i_d_ki := rfl

@[simp] theorem measure_keeps_i_a_measured (F : FocMath α) (c : CurrentController α) (s co : α) :
    (CurrentController_update_measure F c s co).i_a_measured = c.i_a_measured := rfl

@[simp] theorem measure_keeps_i_b_measured (F : FocMath α) (c : CurrentController α) (s co : α) :
    (CurrentController_update_measure F c s co).i_b_measured = c.i_b_measured := rfl

@[simp] theorem measure_keeps_i_c_measured (F : FocMath α) (c : CurrentController α) (s co : α) :
    (CurrentController_update_measure F c s co).i_c_measured = c.i_c_measured := rfl

@[simp] theorem measure_keeps_i_q_target (F : FocMath α) (c : CurrentController α) (s co : α) :
    (CurrentController_update_measure F c s co).i_q_target = c.i_q_target := rfl

@[simp] theorem measure_keeps_i_d_target (F : FocMath α) (c : CurrentController α) (s co : α) :
    (CurrentController_update_measure F c s co).i_d_target = c.i_d_target := rfl

@[simp] theorem measure_keeps_i_q_setpoint (F : FocMath α) (c : CurrentController α) (s co : α) :
    (CurrentController_update_measure F c s co).i_q_setpoint = c.i_q_setpoint := rfl

@[simp] theorem measure_keeps_i_d_setpoint (F : FocMath α) (c : CurrentController α) (s co : α) :
    (CurrentController_update_measure F c s co).i_d_setpoint = c.i_d_setpoint := rfl

@[simp] theorem measure_keeps_i_q_integrator (F : FocMath α) (c : CurrentController α) (s co : α) :
    (CurrentController_update_measure F c s co).i_q_integrator = c.i_q_integrator := rfl

@[simp] theorem measure_keeps_i_d_integrator (F : FocMath α) (c : CurrentController α) (s co : α) :
    (CurrentController_update_measure F c s co).i_d_integrator = c.i_d_integrator := rfl

@[simp] theorem measure_keeps_v_q_setpoint (F : FocMath α) (c : CurrentController α) (s co : α) :
    (CurrentController_update_measure F c s co).v_q_setpoint = c.v_q_setpoint := rfl

@[simp] theorem measure_keeps_v_d_setpoint (F : FocMath α) (c : CurrentController α) (s co : α) :
    (CurrentController_update_measure F c s co).v_d_setpoint = c.v_d_setpoint := rfl

@[simp] theorem measure_keeps_v_alpha_setpoint (F : FocMath α) (c : CurrentController α) (s co : α) :
    (CurrentController_update_measure F c s co).v_alpha_setpoint = c.v_alpha_setpoint := rfl

@[simp] theorem measure_keeps_v_beta_setpoint (F : FocMath α) (c : CurrentController α) (s co : α) :
    (CurrentController_update_measure F c s co).v_beta_setpoint = c.v_beta_setpoint := rfl

@[simp] theorem measure_keeps_v_a_setpoint (F : FocMath α) (c : CurrentController α) (s co : α) :
    (CurrentController_update_measure F c s co).v_a_setpoint = c.v_a_setpoint := rfl

@[simp] theorem measure_keeps_v_b_setpoint (F : FocMath α) (c : CurrentController α) (s co : α) :
    (CurrentController_update_measure F c s co).v_b_setpoint = c.v_b_setpoint := rfl

@[simp] theorem measure_keeps_v_c_setpoint (F : FocMath α) (c : CurrentController α) (s co : α) :
    (CurrentController_update_measure F c s co).v_c_setpoint = c.v_c_setpoint := rfl

@[simp] theorem integrate_keeps_current_filter_alpha (c : CurrentController α) (mode : Mode) :
    (CurrentController_update_integrate c mode).current_filter_alpha = c.current_filter_alpha := by
  unfold CurrentController_update_integrate; split_ifs <;> rfl

@[simp] theorem integrate_keeps_i_q_kp (c : CurrentController α) (mode : Mode) :
    (CurrentController_update_integrate c mode).i_q_kp = c.i_q_kp := by
  unfold CurrentController_update_integrate; split_ifs <;> rfl

@[simp] theorem integrate_keeps_i_q_ki (c : CurrentController α) (mode : Mode) :
    (CurrentController_update_integrate c mode).i_q_ki = c.i_q_ki := by
  unfold CurrentController_update_integrate; split_ifs <;> rfl

@[simp] theorem integrate_keeps_i_d_kp (c : CurrentController α) (mode : Mode) :
    (CurrentController_update_integrate c mode).i_d_kp = c.i_d_kp := by
  unfold CurrentController_update_integrate; split_ifs <;> rfl

@[simp] theorem integrate_keeps_i_d_ki (c : CurrentController α) (mode : Mode) :
    (CurrentController_update_integrate c mode).i_d_ki = c.i_d_ki := by
  unfold CurrentController_update_integrate; split_ifs <;> rfl

@[simp] theorem integrate_keeps_i_a_measured (c : CurrentController α) (mode : Mode) :
    (CurrentController_update_integrate c mode).i_a_measured = c.i_a_measured := by
  unfold CurrentController_update_integrate; split_ifs <;> rfl

@[simp] theorem integrate_keeps_i_b_measured (c : CurrentController α) (mode : Mode) :
    (CurrentController_update_integrate c mode).i_b_measured = c.i_b_measured := by
  unfold CurrentController_update_integrate; split_ifs <;> rfl

@[simp] theorem integrate_keeps_i_c_measured (c : CurrentController α) (mode : Mode) :
    (CurrentController_update_integrate c mode).i_c_measured = c.i_c_measured := by
  unfold CurrentController_update_integrate; split_ifs <;> rfl

@[simp] theorem integrate_keeps_i_alpha_measured (c : CurrentController α) (mode : Mode) :
    (CurrentController_update_integrate c mode).i_alpha_measured = c.i_alpha_measured := by
  unfold CurrentController_update_integrate; split_ifs <;> rfl

@[simp] theorem integrate_keeps_i_beta_measured (c : CurrentController α) (mode : Mode) :
    (CurrentController_update_integrate c mode).i_beta_measured = c.i_beta_measured := by
  unfold CurrentController_update_integrate; split_ifs <;> rfl

@[simp] theorem integrate_keeps_i_q_measured (c : CurrentController α) (mode : Mode) :
    (CurrentController_update_integrate c mode).i_q_measured = c.i_q_measured := by
  unfold CurrentController_update_integrate; split_ifs <;> rfl

@[simp] theorem integrate_keeps_i_d_measured (c : CurrentController α) (mode : Mode) :
    (CurrentController_update_integrate c mode).i_d_measured = c.i_d_measured := by
  unfold CurrentController_update_integrate; split_ifs <;> rfl

@[simp] theorem integrate_keeps_i_q_target (c : CurrentController α) (mode : Mode) :
    (CurrentController_update_integrate c mode).i_q_target = c.i_q_target := by
  unfold CurrentController_update_integrate; split_ifs <;> rfl

@[simp] theorem integrate_keeps_i_d_target (c : CurrentController α) (mode : Mode) :
    (CurrentController_update_integrate c mode).i_d_target = c.i_d_target := by
  unfold CurrentController_update_integrate; split_ifs <;> rfl

@[simp] theorem integrate_keeps_v_q_setpoint (c : CurrentController α) (mode : Mode) :
    (CurrentController_update_integrate c mode).v_q_setpoint = c.v_q_setpoint := by
  unfold CurrentController_update_integrate; split_ifs <;> rfl

@[simp] theorem integrate_keeps_v_d_setpoint (c : CurrentController α) (mode : Mode) :
    (CurrentController_update_integrate c mode).v_d_setpoint = c.v_d_setpoint := by
  unfold CurrentController_update_integrate; split_ifs <;> rfl

@[simp] theorem integrate_keeps_v_alpha_setpoint (c : CurrentController α) (mode : Mode) :
    (CurrentController_update_integrate c mode).v_alpha_setpoint = c.v_alpha_setpoint := by
  unfold CurrentController_update_integrate; split_ifs <;> rfl

@[simp] theorem integrate_keeps_v_beta_setpoint (c : CurrentController α) (mode : Mode) :
    (CurrentController_update_integrate c mode).v_beta_setpoint = c.v_beta_setpoint := by
  unfold CurrentController_update_integrate; split_ifs <;> rfl

@[simp] theorem integrate_keeps_v_a_setpoint (c : CurrentController α) (mode : Mode) :
    (CurrentController_update_integrate c mode).v_a_setpoint = c.v_a_setpoint := by
  unfold CurrentController_update_integrate; split_ifs <;> rfl

@[simp] theorem integrate_keeps_v_b_setpoint (c : CurrentController α) (mode : Mode) :
    (CurrentController_update_integrate c mode).v_b_setpoint = c.v_b_setpoint := by
  unfold CurrentController_update_integrate; split_ifs <;> rfl

@[simp] theorem integrate_keeps_v_c_setpoint (c : CurrentController α) (mode : Mode) :
    (CurrentController_update_integrate c mode).v_c_setpoint = c.v_c_setpoint := by
  unfold CurrentController_update_integrate; split_ifs <;> rfl

@[simp] theorem voltage_keeps_current_filter_alpha (c : CurrentController α) (mode : Mode) :
    (CurrentController_update_voltage c mode).current_filter_alpha = c.current_filter_alpha := by
  unfold CurrentController_update_voltage; split_ifs <;> rfl

@[simp] theorem voltage_keeps_i_q_kp (c : CurrentController α) (mode : Mode) :
    (CurrentController_update_voltage c mode).i_q_kp = c.i_q_kp := by
  unfold CurrentController_update_voltage; split_ifs <;> rfl

@[simp] theorem voltage_keeps_i_q_ki (c : CurrentController α) (mode : Mode) :
    (CurrentController_update_voltage c mode).i_q_ki = c.i_q_ki := by
  unfold CurrentController_update_voltage; split_ifs <;> rfl

@[simp] theorem voltage_keeps_i_d_kp (c : CurrentController α) (mode : Mode) :
    (CurrentController_update_voltage c mode).i_d_kp = c.i_d_kp := by
  unfold CurrentController_update_voltage; split_ifs <;> rfl

@[simp] theorem voltage_keeps_i_d_ki (c : CurrentController α) (mode : Mode) :
    (CurrentController_update_voltage c mode).i_d_ki = c.i_d_ki := by
  unfold CurrentController_update_voltage; split_ifs <;> rfl

@[simp] theorem voltage_keeps_i_a_measured (c : CurrentController α) (mode : Mode) :
    (CurrentController_update_voltage c mode).i_a_measured = c.i_a_measured := by
  unfold CurrentController_update_voltage; split_ifs <;> rfl

@[simp] theorem voltage_keeps_i_b_measured (c : CurrentController α) (mode : Mode) :
    (CurrentController_update_voltage c mode).i_b_measured = c.i_b_measured := by
  unfold CurrentController_update_voltage; split_ifs <;> rfl

@[simp] theorem voltage_keeps_i_c_measured (c : CurrentController α) (mode : Mode) :
    (CurrentController_update_voltage c mode).i_c_measured = c.i_c_measured := by
  unfold CurrentController_update_voltage; split_ifs <;> rfl

@[simp] theorem voltage_keeps_i_alpha_measured (c : CurrentController α) (mode : Mode) :
    (CurrentController_update_voltage c mode).i_alpha_measured = c.i_alpha_measured := by
  unfold CurrentController_update_voltage; split_ifs <;> rfl

@[simp] theorem voltage_keeps_i_beta_measured (c : CurrentController α) (mode : Mode) :
    (CurrentController_update_voltage c mode).i_beta_measured = c.i_beta_measured := by
  unfold CurrentController_update_voltage; split_ifs <;> rfl

@[simp] theorem voltage_keeps_i_q_measured (c : CurrentController α) (mode : Mode) :
    (CurrentController_update_voltage c mode).i_q_measured = c.i_q_measured := by
  unfold CurrentController_update_voltage; split_ifs <;> rfl

@[simp] theorem voltage_keeps_i_d_measured (c : CurrentController α) (mode : Mode) :
    (CurrentController_update_voltage c mode).i_d_measured = c.i_d_measured := by
  unfold CurrentController_update_voltage; split_ifs <;> rfl

@[simp] theorem voltage_keeps_i_q_target (c : CurrentController α) (mode : Mode) :
    (CurrentController_update_voltage c mode).i_q_target = c.i_q_target := by
  unfold CurrentController_update_voltage; split_ifs <;> rfl

@[simp] theorem voltage_keeps_i_d_target (c : CurrentController α) (mode : Mode) :
    (CurrentController_update_voltage c mode).i_d_target = c.i_d_target := by
  unfold CurrentController_update_voltage; split_ifs <;> rfl

@[simp] theorem voltage_keeps_i_q_setpoint (c : CurrentController α) (mode : Mode) :
    (CurrentController_update_voltage c mode).i_q_setpoint = c.i_q_setpoint := by
  unfold CurrentController_update_voltage; split_ifs <;> rfl

@[simp] theorem voltage_keeps_i_d_setpoint (c : CurrentController α) (mode : Mode) :
    (CurrentController_update_voltage c mode).i_d_setpoint = c.i_d_setpoint := by
  unfold CurrentController_update_voltage; split_ifs <;> rfl

@[simp] theorem voltage_keeps_i_q_integrator (c : CurrentController α) (mode : Mode) :
    (CurrentController_update_voltage c mode).i_q_integrator = c.i_q_integrator := by
  unfold CurrentController_update_voltage; split_ifs <;> rfl

@[simp] theorem voltage_keeps_i_d_integrator (c : CurrentController α) (mode : Mode) :
    (CurrentController_update_voltage c mode).i_d_integrator = c.i_d_integrator := by
  unfold CurrentController_update_voltage; split_ifs <;> rfl

@[simp] theorem voltage_keeps_v_alpha_setpoint (c : CurrentController α) (mode : Mode) :
    (CurrentController_update_voltage c mode).v_alpha_setpoint = c.v_alpha_setpoint := by
  unfold CurrentController_update_voltage; split_ifs <;> rfl

@[simp] theorem voltage_keeps_v_beta_setpoint (c : CurrentController α) (mode : Mode) :
    (CurrentController_update_voltage c mode).v_beta_setpoint = c.v_beta_setpoint := by
  unfold CurrentController_update_voltage; split_ifs <;> rfl

@[simp] theorem voltage_keeps_v_a_setpoint (c : CurrentController α) (mode : Mode) :
    (CurrentController_update_voltage c mode).v_a_setpoint = c.v_a_setpoint := by
  unfold CurrentController_update_voltage; split_ifs <;> rfl

@[simp] theorem voltage_keeps_v_b_setpoint (c : CurrentController α) (mode : Mode) :
    (CurrentController_update_voltage c mode).v_b_setpoint = c.v_b_setpoint := by
  unfold CurrentController_update_voltage; split_ifs <;> rfl

@[simp] theorem voltage_keeps_v_c_setpoint (c : CurrentController α) (mode : Mode) :
    (CurrentController_update_voltage c mode).v_c_setpoint = c.v_c_setpoint := by
  unfold CurrentController_update_voltage; split_ifs <;> rfl

@[simp] theorem clamp_keeps_current_filter_alpha (sqrtf : α → α) (c : CurrentController α) (vb : α) :
    (CurrentController_update_clamp sqrtf c vb).current_filter_alpha = c.current_filter_alpha := by
  unfold CurrentController_update_clamp; dsimp only; split_ifs <;> rfl

@[simp] theorem clamp_keeps_i_q_kp (sqrtf : α → α) (c : CurrentController α) (vb : α) :
    (CurrentController_update_clamp sqrtf c vb).i_q_kp = c.i_q_kp := by
  unfold CurrentController_update_clamp; dsimp only; split_ifs <;> rfl

@[simp] theorem clamp_keeps_i_q_ki (sqrtf : α → α) (c : CurrentController α) (vb : α) :
    (CurrentController_update_clamp sqrtf c vb).i_q_ki = c.i_q_ki := by
  unfold CurrentController_update_clamp; dsimp only; split_ifs <;> rfl

@[simp] theorem clamp_keeps_i_d_kp (sqrtf : α → α) (c : CurrentController α) (vb : α) :
    (CurrentController_update_clamp sqrtf c vb).i_d_kp = c.i_d_kp := by
  unfold CurrentController_update_clamp; dsimp only; split_ifs <;> rfl

@[simp] theorem clamp_keeps_i_d_ki (sqrtf : α → α) (c : CurrentController α) (vb : α) :
    (CurrentController_update_clamp sqrtf c vb).i_d_ki = c.i_d_ki := by
  unfold CurrentController_update_clamp; dsimp only; split_ifs <;> rfl

@[simp] theorem clamp_keeps_i_a_measured (sqrtf : α → α) (c : CurrentController α) (vb : α) :
    (CurrentController_update_clamp sqrtf c vb).i_a_measured = c.i_a_measured := by
  unfold CurrentController_update_clamp; dsimp only; split_ifs <;> rfl

@[simp] theorem clamp_keeps_i_b_measured (sqrtf : α → α) (c : CurrentController α) (vb : α) :
    (CurrentController_update_clamp sqrtf c vb).i_b_measured = c.i_b_measured := by
  unfold CurrentController_update_clamp; dsimp only; split_ifs <;> rfl

@[simp] theorem clamp_keeps_i_c_measured (sqrtf : α → α) (c : CurrentController α) (vb : α) :
    (CurrentController_update_clamp sqrtf c vb).i_c_measured = c.i_c_measured := by
  unfold CurrentController_update_clamp; dsimp only; split_ifs <;> rfl

@[simp] theorem clamp_keeps_i_alpha_measured (sqrtf : α → α) (c : CurrentController α) (vb : α) :
    (CurrentController_update_clamp sqrtf c vb).i_alpha_measured = c.i_alpha_measured := by
  unfold CurrentController_update_clamp; dsimp only; split_ifs <;> rfl

@[simp] theorem clamp_keeps_i_beta_measured (sqrtf : α → α) (c : CurrentController α) (vb : α) :
    (CurrentController_update_clamp sqrtf c vb).i_beta_measured = c.i_beta_measured := by
  unfold CurrentController_update_clamp; dsimp only; split_ifs <;> rfl

@[simp] theorem clamp_keeps_i_q_measured (sqrtf : α → α) (c : CurrentController α) (vb : α) :
    (CurrentController_update_clamp sqrtf c vb).i_q_measured = c.i_q_measured := by
  unfold CurrentController_update_clamp; dsimp only; split_ifs <;> rfl

@[simp] theorem clamp_keeps_i_d_measured (sqrtf : α → α) (c : CurrentController α) (vb : α) :
    (CurrentController_update_clamp sqrtf c vb).i_d_measured = c.i_d_measured := by
  unfold CurrentController_update_clamp; dsimp only; split_ifs <;> rfl

@[simp] theorem clamp_keeps_i_q_target (sqrtf : α → α) (c : CurrentController α) (vb : α) :
    (CurrentController_update_clamp sqrtf c vb).i_q_target = c.i_q_target := by
  unfold CurrentController_update_clamp; dsimp only; split_ifs <;> rfl

@[simp] theorem clamp_keeps_i_d_target (sqrtf : α → α) (c : CurrentController α) (vb : α) :
    (CurrentController_update_clamp sqrtf c vb).i_d_target = c.i_d_target := by
  unfold CurrentController_update_clamp; dsimp only; split_ifs <;> rfl

@[simp] theorem clamp_keeps_i_q_setpoint (sqrtf : α → α) (c : CurrentController α) (vb : α) :
    (CurrentController_update_clamp sqrtf c vb).i_q_setpoint = c.i_q_setpoint := by
  unfold CurrentController_update_clamp; dsimp only; split_ifs <;> rfl

@[simp] theorem clamp_keeps_i_d_setpoint (sqrtf : α → α) (c : CurrentController α) (vb : α) :
    (CurrentController_update_clamp sqrtf c vb).i_d_setpoint = c.i_d_setpoint := by
  unfold CurrentController_update_clamp; dsimp only; split_ifs <;> rfl

@[simp] theorem clamp_keeps_i_q_integrator (sqrtf : α → α) (c : CurrentController α) (vb : α) :
    (CurrentController_update_clamp sqrtf c vb).i_q_integrator = c.i_q_integrator := by
  unfold CurrentController_update_clamp; dsimp only; split_ifs <;> rfl

@[simp] theorem clamp_keeps_i_d_integrator (sqrtf : α → α) (c : CurrentController α) (vb : α) :
    (CurrentController_update_clamp sqrtf c vb).i_d_integrator = c.i_d_integrator := by
  unfold CurrentController_update_clamp; dsimp only; split_ifs <;> rfl

@[simp] theorem clamp_keeps_v_alpha_setpoint (sqrtf : α → α) (c : CurrentController α) (vb : α) :
    (CurrentController_update_clamp sqrtf c vb).v_alpha_setpoint = c.v_alpha_setpoint := by
  unfold CurrentController_update_clamp; dsimp only; split_ifs <;> rfl

@[simp] theorem clamp_keeps_v_beta_setpoint (sqrtf : α → α) (c : CurrentController α) (vb : α) :
    (CurrentController_update_clamp sqrtf c vb).v_beta_setpoint = c.v_beta_setpoint := by
  unfold CurrentController_update_clamp; dsimp only; split_ifs <;> rfl

@[simp] theorem clamp_keeps_v_a_setpoint (sqrtf : α → α) (c : CurrentController α) (vb : α) :
    (CurrentController_update_clamp sqrtf c vb).v_a_setpoint = c.v_a_setpoint := by
  unfold CurrentController_update_clamp; dsimp only; split_ifs <;> rfl

@[simp] theorem clamp_keeps_v_b_setpoint (sqrtf : α → α) (c : CurrentController α) (vb : α) :
    (CurrentController_update_clamp sqrtf c vb).v_b_setpoint = c.v_b_setpoint := by
  unfold CurrentController_update_clamp; dsimp only; split_ifs <;> rfl

@[simp] theorem clamp_keeps_v_c_setpoint (sqrtf : α → α) (c : CurrentController α) (vb : α) :
    (CurrentController_update_clamp sqrtf c vb).v_c_setpoint = c.v_c_setpoint := by
  unfold CurrentController_update_clamp; dsimp only; split_ifs <;> rfl

@[simp] theorem output_keeps_current_filter_alpha (F : FocMath α) (c : CurrentController α) (mode : Mode) (s co : α) :
    (CurrentController_update_output F c mode s co).current_filter_alpha = c.current_filter_alpha := by
  unfold CurrentController_update_output; split_ifs <;> rfl

@[simp] theorem output_keeps_i_q_kp (F : FocMath α) (c : CurrentController α) (mode : Mode) (s co : α) :
    (CurrentController_update_output F c mode s co).i_q_kp = c.i_q_kp := by
  unfold CurrentController_update_output; split_ifs <;> rfl

@[simp] theorem output_keeps_i_q_ki (F : FocMath α) (c : CurrentController α) (mode : Mode) (s co : α) :
    (CurrentController_update_output F c mode s co).i_q_ki = c.i_q_ki := by
  unfold CurrentController_update_output; split_ifs <;> rfl

@[simp] theorem output_keeps_i_d_kp (F : FocMath α) (c : CurrentController α) (mode : Mode) (s co : α) :
    (CurrentController_update_output F c mode s co).i_d_kp = c.i_d_kp := by
  unfold CurrentController_update_output; split_ifs <;> rfl

@[simp] theorem output_keeps_i_d_ki (F : FocMath α) (c : CurrentController α) (mode : Mode) (s co : α) :
    (CurrentController_update_output F c mode s co).i_d_ki = c.i_d_ki := by
  unfold CurrentController_update_output; split_ifs <;> rfl

@[simp] theorem output_keeps_i_a_measured (F : FocMath α) (c : CurrentController α) (mode : Mode) (s co : α) :
    (CurrentController_update_output F c mode s co).i_a_measured = c.i_a_measured := by
  unfold CurrentController_update_output; split_ifs <;> rfl

@[simp] theorem output_keeps_i_b_measured (F : FocMath α) (c : CurrentController α) (mode : Mode) (s co : α) :
    (CurrentController_update_output F c mode s co).i_b_measured = c.i_b_measured := by
  unfold CurrentController_update_output; split_ifs <;> rfl

@[simp] theorem output_keeps_i_c_measured (F : FocMath α) (c : CurrentController α) (mode : Mode) (s co : α) :
    (CurrentController_update_output F c mode s co).i_c_measured = c.i_c_measured := by
  unfold CurrentController_update_output; split_ifs <;> rfl

@[simp] theorem output_keeps_i_alpha_measured (F : FocMath α) (c : CurrentController α) (mode : Mode) (s co : α) :
    (CurrentController_update_output F c mode s co).i_alpha_measured = c.i_alpha_measured := by
  unfold CurrentController_update_output; split_ifs <;> rfl

@[simp] theorem output_keeps_i_beta_measured (F : FocMath α) (c : CurrentController α) (mode : Mode) (s co : α) :
    (CurrentController_update_output F c mode s co).i_beta_measured = c.i_beta_measured := by
  unfold CurrentController_update_output; split_ifs <;> rfl

@[simp] theorem output_keeps_i_q_measured (F : FocMath α) (c : CurrentController α) (mode : Mode) (s co : α) :
    (CurrentController_update_output F c mode s co).i_q_measured = c.i_q_measured := by
  unfold CurrentController_update_output; split_ifs <;> rfl

@[simp] theorem output_keeps_i_d_measured (F : FocMath α) (c : CurrentController α) (mode : Mode) (s co : α) :
    (CurrentController_update_output F c mode s co).i_d_measured = c.i_d_measured := by
  unfold CurrentController_update_output; split_ifs <;> rfl

@[simp] theorem output_keeps_i_q_target (F : FocMath α) (c : CurrentController α) (mode : Mode) (s co : α) :
    (CurrentController_update_output F c mode s co).i_q_target = c.i_q_target := by
  unfold CurrentController_update_output; split_ifs <;> rfl

@[simp] theorem output_keeps_i_d_target (F : FocMath α) (c : CurrentController α) (mode : Mode) (s co : α) :
    (CurrentController_update_output F c mode s co).i_d_target = c.i_d_target := by
  unfold CurrentController_update_output; split_ifs <;> rfl

@[simp] theorem output_keeps_i_q_setpoint (F : FocMath α) (c : CurrentController α) (mode : Mode) (s co : α) :
    (CurrentController_update_output F c mode s co).i_q_setpoint = c.i_q_setpoint := by
  unfold CurrentController_update_output; split_ifs <;> rfl

@[simp] theorem output_keeps_i_d_setpoint (F : FocMath α) (c : CurrentController α) (mode : Mode) (s co : α) :
    (CurrentController_update_output F c mode s co).i_d_setpoint = c.i_d_setpoint := by
  unfold CurrentController_update_output; split_ifs <;> rfl

@[simp] theorem output_keeps_i_q_integrator (F : FocMath α) (c : CurrentController α) (mode : Mode) (s co : α) :
    (CurrentController_update_output F c mode s co).i_q_integrator = c.i_q_integrator := by
  unfold CurrentController_update_output; split_ifs <;> rfl

@[simp] theorem output_keeps_i_d_integrator (F : FocMath α) (c : CurrentController α) (mode : Mode) (s co : α) :
    (CurrentController_update_output F c mode s co).i_d_integrator = c.i_d_integrator := by
  unfold CurrentController_update_output; split_ifs <;> rfl

@[simp] theorem output_keeps_v_q_setpoint (F : FocMath α) (c : CurrentController α) (mode : Mode) (s co : α) :
    (CurrentController_update_output F c mode s co).v_q_setpoint = c.v_q_setpoint := by
  unfold CurrentController_update_output; split_ifs <;> rfl

@[simp] theorem output_keeps_v_d_setpoint (F : FocMath α) (c : CurrentController α) (mode : Mode) (s co : α) :
    (CurrentController_update_output F c mode s co).v_d_setpoint = c.v_d_setpoint := by
  unfold CurrentController_update_output; split_ifs <;> rfl

/-! ### What the stages assign -/

/-- The integrators after a tick are those of the integrator stage. -/
theorem update_integrators (F : FocMath α) (sqrtf : α → α) (c : CurrentController α)
    (mode : Mode) (s co vb : α) :
    (CurrentController_update F sqrtf c mode s co vb).i_q_integrator
      = (CurrentController_update_integrate
          (CurrentController_update_measure F c s co) mode).i_q_integrator
    ∧ (CurrentController_update F sqrtf c mode s co vb).i_d_integrator
      = (CurrentController_update_integrate
          (CurrentController_update_measure F c s co) mode).i_d_integrator := by
  simp [CurrentController_update, CurrentController_update_preclamp]

/-- The commanded `(v_q, v_d)` after a tick is that of the clamp stage. -/
theorem update_vqd (F : FocMath α) (sqrtf : α → α) (c : CurrentController α)
    (mode : Mode) (s co vb : α) :
    (CurrentController_update F sqrtf c mode s co vb).v_q_setpoint
      = (CurrentController_update_clamp sqrtf
          (CurrentController_update_preclamp F c mode s co) vb).v_q_setpoint
    ∧ (CurrentController_update F sqrtf c mode s co vb).v_d_setpoint
      = (CurrentController_update_clamp sqrtf
          (CurrentController_update_preclamp F c mode s co) vb).v_d_setpoint := by
  simp [CurrentController_update]

/-- In `MODE_VQD_OVERRIDE` the stages before the clamp leave `(v_q, v_d)`. -/
theorem preclamp_vqd_override (F : FocMath α) (c : CurrentController α) (s co : α) :
    (CurrentController_update_preclamp F c MODE_VQD_OVERRIDE s co).v_q_setpoint
      = c.v_q_setpoint
    ∧ (CurrentController_update_preclamp F c MODE_VQD_OVERRIDE s co).v_d_setpoint
      = c.v_d_setpoint := by
  simp [CurrentController_update_preclamp, CurrentController_update_voltage]

/-- The clamp stage when its two tests succeed. -/
theorem clamp_triggered (sqrtf : α → α) (c : CurrentController α) (vb : α)
    (h1 : 0 < vb)
    (h2 : vb * vb * 1.15 < c.v_q_setpoint * c.v_q_setpoint + c.v_d_setpoint * c.v_d_setpoint) :
    (CurrentController_update_clamp sqrtf c vb).v_q_setpoint
      = c.v_q_setpoint * sqrtf |(c.v_q_setpoint * c.v_q_setpoint
          + c.v_d_setpoint * c.v_d_setpoint) / (vb * vb * 1.15)|
    ∧ (CurrentController_update_clamp sqrtf c vb).v_d_setpoint
      = c.v_d_setpoint * sqrtf |(c.v_q_setpoint * c.v_q_setpoint
          + c.v_d_setpoint * c.v_d_setpoint) / (vb * vb * 1.15)| := by
  unfold CurrentController_update_clamp
  rw [if_pos h1]
  simp only []
  rw [if_pos h2]
  exact ⟨rfl, rfl⟩

/-- The clamp stage when one of its two tests fails. -/
theorem clamp_idle (sqrtf : α → α) (c : CurrentController α) (vb : α)
    (h : vb ≤ 0 ∨
      c.v_q_setpoint * c.v_q_setpoint + c.v_d_setpoint * c.v_d_setpoint ≤ vb * vb * 1.15) :
    CurrentController_update_clamp sqrtf c vb = c := by
  unfold CurrentController_update_clamp
  rcases h with h | h
  · rw [if_neg (not_lt.mpr h)]
  · simp only []
    rw [if_neg (not_lt.mpr h)]
    simp

/-- In `MODE_VQD_OVERRIDE`, when both tests of the clamp succeed on the held
`(v_q, v_d)`, the tick multiplies both by `sqrtf |v_norm / v_max_sq|`. -/
theorem update_vqd_override_triggered (F : FocMath α) (sqrtf : α → α)
    (c : CurrentController α) (s co vb : α) (h1 : 0 < vb)
    (h2 : vb * vb * 1.15 < c.v_q_setpoint * c.v_q_setpoint + c.v_d_setpoint * c.v_d_setpoint) :
    (CurrentController_update F sqrtf c MODE_VQD_OVERRIDE s co vb).v_q_setpoint
      = c.v_q_setpoint * sqrtf |(c.v_q_setpoint * c.v_q_setpoint
          + c.v_d_setpoint * c.v_d_setpoint) / (vb * vb * 1.15)|
    ∧ (CurrentController_update F sqrtf c MODE_VQD_OVERRIDE s co vb).v_d_setpoint
      = c.v_d_setpoint * sqrtf |(c.v_q_setpoint * c.v_q_setpoint
          + c.v_d_setpoint * c.v_d_setpoint) / (vb * vb * 1.15)| := by
  have hq := (preclamp_vqd_override F c s co).1
  have hd := (preclamp_vqd_override F c s co).2
  have h := clamp_triggered sqrtf (CurrentController_update_preclamp F c MODE_VQD_OVERRIDE s co)
    vb h1 (by rw [hq, hd]; exact h2)
  rw [hq, hd] at h
  rw [(update_vqd F sqrtf c _ s co vb).1, (update_vqd F sqrtf c _ s co vb).2]
  exact h

/-- The overmodulation scenario, evaluated on the reals: both components
leave the tick as `20 * √(800 / 165.6)`. -/
theorem scenario_overmodulation_eval (F : FocMath ℝ) (s co : ℝ) :
    (CurrentController_update F Real.sqrt scenario_overmodulation
        MODE_VQD_OVERRIDE s co 12).v_q_setpoint = 20 * Real.sqrt (800 / 165.6)
    ∧ (CurrentController_update F Real.sqrt scenario_overmodulation
        MODE_VQD_OVERRIDE s co 12).v_d_setpoint = 20 * Real.sqrt (800 / 165.6) := by
  have h := update_vqd_override_triggered F Real.sqrt scenario_overmodulation s co 12
    (by norm_num) (by norm_num [scenario_overmodulation])
  have e : |((20 : ℝ) * 20 + 20 * 20) / (12 * 12 * 1.15)| = 800 / 165.6 := by
    rw [abs_of_nonneg (by norm_num)]; norm_num
  have q : (scenario_overmodulation : CurrentController ℝ).v_q_setpoint = 20 := rfl
  have d : (scenario_overmodulation : CurrentController ℝ).v_d_setpoint = 20 := rfl
  rw [q, d, e] at h
  exact h

/-- What the tick leaves in the filtered currents: the assignments of lines
35-36, on the raw currents of the tick and the values held before. -/
theorem update_measured (F : FocMath α) (sqrtf : α → α) (c : CurrentController α)
    (mode : Mode) (s co vb : α) :
    (CurrentController_update F sqrtf c mode s co vb).i_q_measured
      = c.current_filter_alpha * ((CurrentController_raw_iqd F c s co).1 - c.i_q_measured)
    ∧ (CurrentController_update F sqrtf c mode s co vb).i_d_measured
      = c.current_filter_alpha * ((CurrentController_raw_iqd F c s co).2 - c.i_d_measured) := by
  simp only [CurrentController_update, CurrentController_update_preclamp,
    output_keeps_i_q_measured, output_keeps_i_d_measured, clamp_keeps_i_q_measured,
    clamp_keeps_i_d_measured, voltage_keeps_i_q_measured, voltage_keeps_i_d_measured,
    integrate_keeps_i_q_measured, integrate_keeps_i_d_measured]
  exact ⟨rfl, rfl⟩

/-- The PI stages (lines 38-56) in a mode that is neither `MODE_IQD_OVERRIDE`
nor `MODE_VQD_OVERRIDE`, on the record `m` that the filter stage hands over. -/
theorem pi_stages (m : CurrentController α) (mode : Mode)
    (hI : mode ≠ MODE_IQD_OVERRIDE) (hV : mode ≠ MODE_VQD_OVERRIDE) :
    ((CurrentController_update_integrate m mode).i_q_setpoint = m.i_q_target - m.i_q_measured
      ∧ (CurrentController_update_integrate m mode).i_q_integrator
        = clampf (m.i_q_integrator + m.i_q_ki * (m.i_q_target - m.i_q_measured)) (-5) 5
      ∧ (CurrentController_update_voltage (CurrentController_update_integrate m mode)
          mode).v_q_setpoint
        = m.i_q_kp * (m.i_q_target - m.i_q_measured)
          + clampf (m.i_q_integrator + m.i_q_ki * (m.i_q_target - m.i_q_measured)) (-5) 5)
    ∧ ((CurrentController_update_integrate m mode).i_d_setpoint = m.i_d_target - m.i_d_measured
      ∧ (CurrentController_update_integrate m mode).i_d_integrator
        = clampf (m.i_d_integrator + m.i_d_ki * (m.i_d_target - m.i_d_measured)) (-5) 5
      ∧ (CurrentController_update_voltage (CurrentController_update_integrate m mode)
          mode).v_d_setpoint
        = m.i_d_kp * (m.i_d_target - m.i_d_measured)
          + clampf (m.i_d_integrator + m.i_d_ki * (m.i_d_target - m.i_d_measured)) (-5) 5) := by
  unfold CurrentController_update_voltage CurrentController_update_integrate
  rw [if_pos hI, if_pos hV]
  exact ⟨⟨rfl, rfl, rfl⟩, ⟨rfl, rfl, rfl⟩⟩

/-- The output stage outside `MODE_VABC_OVERRIDE`: the phase voltages are the
inverse-Clarke / SVPWM image of the `(v_alpha, v_beta)` the stage leaves. -/
theorem output_svpwm (F : FocMath α) (c : CurrentController α) (mode : Mode) (s co : α)
    (h : mode ≠ MODE_VABC_OVERRIDE) :
    ((CurrentController_update_output F c mode s co).v_a_setpoint,
      (CurrentController_update_output F c mode s co).v_b_setpoint,
      (CurrentController_update_output F c mode s co).v_c_setpoint)
    = F.FOC_invClarkSVPWM (CurrentController_update_output F c mode s co).v_alpha_setpoint
        (CurrentController_update_output F c mode s co).v_beta_setpoint := by
  unfold CurrentController_update_output
  dsimp only
  rw [if_pos h]

/-- The output stage in `MODE_VABC_OVERRIDE` leaves the phase voltages. -/
theorem output_vabc_override (F : FocMath α) (c : CurrentController α) (s co : α) :
    (CurrentController_update_output F c MODE_VABC_OVERRIDE s co).v_a_setpoint = c.v_a_setpoint
    ∧ (CurrentController_update_output F c MODE_VABC_OVERRIDE s co).v_b_setpoint = c.v_b_setpoint
    ∧ (CurrentController_update_output F c MODE_VABC_OVERRIDE s co).v_c_setpoint
      = c.v_c_setpoint := by
  unfold CurrentController_update_output
  dsimp only
  rw [if_neg (by decide), if_pos (by decide)]
  exact ⟨rfl, rfl, rfl⟩

/-- The output stage when the inverse Park transform is skipped. -/
theorem output_skips_inv_park (F : FocMath α) (c : CurrentController α) (mode : Mode)
    (s co : α) (h : mode = MODE_VALPHABETA_OVERRIDE ∨ mode = MODE_CALIBRATION) :
    (CurrentController_update_output F c mode s co).v_alpha_setpoint = c.v_alpha_setpoint
    ∧ (CurrentController_update_output F c mode s co).v_beta_setpoint = c.v_beta_setpoint := by
  unfold CurrentController_update_output
  dsimp only
  have h1 : ¬ (mode ≠ MODE_VALPHABETA_OVERRIDE ∧ mode ≠ MODE_CALIBRATION) := by
    rcases h with h | h <;> subst h <;> decide
  rw [if_neg h1]
  split_ifs <;> exact ⟨rfl, rfl⟩

/-- In `MODE_IQD_OVERRIDE` the stages before the clamp leave the current
setpoints and command `kp * setpoint` on each axis (the integrators are 0). -/
theorem preclamp_iqd_override (F : FocMath α) (c : CurrentController α) (s co : α) :
    ((CurrentController_update_preclamp F c MODE_IQD_OVERRIDE s co).i_q_setpoint
        = c.i_q_setpoint
      ∧ (CurrentController_update_preclamp F c MODE_IQD_OVERRIDE s co).i_d_setpoint
        = c.i_d_setpoint)
    ∧ ((CurrentController_update_preclamp F c MODE_IQD_OVERRIDE s co).v_q_setpoint
        = c.i_q_kp * c.i_q_setpoint
      ∧ (CurrentController_update_preclamp F c MODE_IQD_OVERRIDE s co).v_d_setpoint
        = c.i_d_kp * c.i_d_setpoint) := by
  simp [CurrentController_update_preclamp, CurrentController_update_voltage,
    CurrentController_update_integrate]

end Lemmas

/-! ## The claims -/

section Claims

variable {α : Type} [LinearOrderedField α]

/-- C1 (defect of the code): with `v_bus = 12 > 0` and the request
`(v_q, v_d) = (20, 20)` held in `MODE_VQD_OVERRIDE`, the vector that
`CurrentController_update` leaves has `v_q² + v_d² = 800 · (800 / 165.6)`,
above the bound `1.15 · v_bus² = 165.6` of the claim: the block commented
`// clamp voltage` multiplies by `sqrtf(v_norm / v_max_sq)`, which lengthens
the vector. -/
theorem C1_clamp_exceeds_bound (F : FocMath ℝ) (sin_theta cos_theta : ℝ) :
    (CurrentController_update F Real.sqrt scenario_overmodulation
        MODE_VQD_OVERRIDE sin_theta cos_theta 12).v_q_setpoint ^ 2
      + (CurrentController_update F Real.sqrt scenario_overmodulation
        MODE_VQD_OVERRIDE sin_theta cos_theta 12).v_d_setpoint ^ 2 = 800 * (800 / 165.6)
    ∧ 1.15 * (12 : ℝ) ^ 2
      < (CurrentController_update F Real.sqrt scenario_overmodulation
        MODE_VQD_OVERRIDE sin_theta cos_theta 12).v_q_setpoint ^ 2
      + (CurrentController_update F Real.sqrt scenario_overmodulation
        MODE_VQD_OVERRIDE sin_theta cos_theta 12).v_d_setpoint ^ 2 := by
  obtain ⟨hq, hd⟩ := scenario_overmodulation_eval F sin_theta cos_theta
  have hs : Real.sqrt (800 / 165.6) ^ 2 = 800 / 165.6 := Real.sq_sqrt (by norm_num)
  have e : (20 * Real.sqrt (800 / 165.6)) ^ 2 + (20 * Real.sqrt (800 / 165.6)) ^ 2
      = 800 * (800 / 165.6) := by
    rw [mul_pow, hs]; ring
  rw [hq, hd, e]
  exact ⟨rfl, by norm_num⟩

/-- C2: for every state, mode and input, both integrators lie in `[-5, 5]`
after `CurrentController_update`, whatever they held before (`clampf` being
the standard clamp). -/
theorem C2_integrators_bounded (F : FocMath α) (sqrtf : α → α) (c : CurrentController α)
    (mode : Mode) (sin_theta cos_theta v_bus : α) :
    (-5 ≤ (CurrentController_update F sqrtf c mode sin_theta cos_theta v_bus).i_q_integrator
      ∧ (CurrentController_update F sqrtf c mode sin_theta cos_theta v_bus).i_q_integrator ≤ 5)
    ∧ (-5 ≤ (CurrentController_update F sqrtf c mode sin_theta cos_theta v_bus).i_d_integrator
      ∧ (CurrentController_update F sqrtf c mode sin_theta cos_theta v_bus).i_d_integrator ≤ 5) := by
  rw [(update_integrators F sqrtf c mode sin_theta cos_theta v_bus).1,
    (update_integrators F sqrtf c mode sin_theta cos_theta v_bus).2]
  unfold CurrentController_update_integrate
  split_ifs with h
  · exact ⟨clampf_mem _ _ _ (by norm_num), clampf_mem _ _ _ (by norm_num)⟩
  · norm_num

/-- C3: with `mode = MODE_IQD_OVERRIDE`, `CurrentController_update` leaves both
integrators at 0, whatever they held before. -/
theorem C3_iqd_override_zeroes_integrators (F : FocMath α) (sqrtf : α → α)
    (c : CurrentController α) (sin_theta cos_theta v_bus : α) :
    (CurrentController_update F sqrtf c MODE_IQD_OVERRIDE sin_theta cos_theta v_bus).i_q_integrator
      = 0
    ∧ (CurrentController_update F sqrtf c MODE_IQD_OVERRIDE sin_theta cos_theta v_bus).i_d_integrator
      = 0 := by
  rw [(update_integrators F sqrtf c _ sin_theta cos_theta v_bus).1,
    (update_integrators F sqrtf c _ sin_theta cos_theta v_bus).2]
  simp [CurrentController_update_integrate]

/-- C4 (defect of the code): lines 35-36 assign `alpha * (raw - measured)` to
the filtered current instead of adding it.  On a record holding `1` in both
filtered currents (default `alpha = 0.2`), in every mode and for every input,
the tick leaves `0.2 * (raw - 1)`, which is not the value
`1 + 0.2 * (raw - 1)` of the single-pole filter. -/
theorem C4_filter_overwrites_measured (F : FocMath α) (sqrtf : α → α) (mode : Mode)
    (sin_theta cos_theta v_bus : α) :
    ((CurrentController_update F sqrtf scenario_filter mode sin_theta cos_theta v_bus).i_q_measured
        = 0.2 * ((CurrentController_raw_iqd F scenario_filter sin_theta cos_theta).1 - 1)
      ∧ (CurrentController_update F sqrtf scenario_filter mode sin_theta cos_theta v_bus).i_d_measured
        = 0.2 * ((CurrentController_raw_iqd F scenario_filter sin_theta cos_theta).2 - 1))
    ∧ (CurrentController_update F sqrtf scenario_filter mode sin_theta cos_theta v_bus).i_q_measured
        ≠ 1 + 0.2 * ((CurrentController_raw_iqd F scenario_filter sin_theta cos_theta).1 - 1)
    ∧ (CurrentController_update F sqrtf scenario_filter mode sin_theta cos_theta v_bus).i_d_measured
        ≠ 1 + 0.2 * ((CurrentController_raw_iqd F scenario_filter sin_theta cos_theta).2 - 1) := by
  obtain ⟨hq, hd⟩ := update_measured F sqrtf scenario_filter mode sin_theta cos_theta v_bus
  have a : (scenario_filter : CurrentController α).current_filter_alpha = 0.2 := rfl
  have q : (scenario_filter : CurrentController α).i_q_measured = 1 := rfl
  have d : (scenario_filter : CurrentController α).i_d_measured = 1 := rfl
  rw [a, q] at hq
  rw [a, d] at hd
  rw [hq, hd]
  refine ⟨⟨rfl, rfl⟩, ?_, ?_⟩ <;> intro h <;> linarith

/-- C5 (defect of the code, the one of C1): with `v_bus = 12` and the request
`(v_q, v_d) = (20, 20)` held in `MODE_VQD_OVERRIDE` (`v_norm = 800 > 165.6`),
`CurrentController_update` multiplies both components by
`√(v_norm / v_max_sq) = √(800 / 165.6)`, not by `√(v_max_sq / v_norm)`: each
leaves the tick as `20 · √(800 / 165.6)`, above 43 and not near 9.11. -/
theorem C5_clamp_scales_by_inverse_ratio (F : FocMath ℝ) (sin_theta cos_theta : ℝ) :
    ((CurrentController_update F Real.sqrt scenario_overmodulation
        MODE_VQD_OVERRIDE sin_theta cos_theta 12).v_q_setpoint = 20 * Real.sqrt (800 / 165.6)
      ∧ (CurrentController_update F Real.sqrt scenario_overmodulation
        MODE_VQD_OVERRIDE sin_theta cos_theta 12).v_d_setpoint = 20 * Real.sqrt (800 / 165.6))
    ∧ 43 < (CurrentController_update F Real.sqrt scenario_overmodulation
        MODE_VQD_OVERRIDE sin_theta cos_theta 12).v_q_setpoint
    ∧ 43 < (CurrentController_update F Real.sqrt scenario_overmodulation
        MODE_VQD_OVERRIDE sin_theta cos_theta 12).v_d_setpoint := by
  obtain ⟨hq, hd⟩ := scenario_overmodulation_eval F sin_theta cos_theta
  have hk : (43 / 20 : ℝ) < Real.sqrt (800 / 165.6) := by
    rw [Real.lt_sqrt (by norm_num)]; norm_num
  rw [hq, hd]
  refine ⟨⟨rfl, rfl⟩, ?_, ?_⟩ <;> linarith

/-- C6: in a mode that is neither `MODE_IQD_OVERRIDE` nor `MODE_VQD_OVERRIDE`
the record just before the clamp obeys the PI law on each axis, `measured`
being the filtered current of this tick: `setpoint = target - measured`,
`integrator = clampf (old integrator + ki * setpoint) (-5) 5`,
`v_setpoint = kp * setpoint + integrator`; the clamp and the output stage
leave setpoint, integrator and filtered current as they are.  With
`kp = 30`, `ki = 0.01`, `i_q_target = 1`, filtered `i_q_measured = 0` and the
integrator at `0` this gives `v_q_setpoint = 30.01` before the clamp. -/
theorem C6_pi_law (F : FocMath α) (sqrtf : α → α) (c : CurrentController α) (mode : Mode)
    (sin_theta cos_theta v_bus : α)
    (hI : mode ≠ MODE_IQD_OVERRIDE) (hV : mode ≠ MODE_VQD_OVERRIDE) :
    ((CurrentController_update_preclamp F c mode sin_theta cos_theta).i_q_setpoint
        = c.i_q_target
          - (CurrentController_update_preclamp F c mode sin_theta cos_theta).i_q_measured
      ∧ (CurrentController_update_preclamp F c mode sin_theta cos_theta).i_q_integrator
        = clampf (c.i_q_integrator + c.i_q_ki
            * (CurrentController_update_preclamp F c mode sin_theta cos_theta).i_q_setpoint)
            (-5) 5
      ∧ (CurrentController_update_preclamp F c mode sin_theta cos_theta).v_q_setpoint
        = c.i_q_kp * (CurrentController_update_preclamp F c mode sin_theta cos_theta).i_q_setpoint
          + (CurrentController_update_preclamp F c mode sin_theta cos_theta).i_q_integrator)
    ∧ ((CurrentController_update_preclamp F c mode sin_theta cos_theta).i_d_setpoint
        = c.i_d_target
          - (CurrentController_update_preclamp F c mode sin_theta cos_theta).i_d_measured
      ∧ (CurrentController_update_preclamp F c mode sin_theta cos_theta).i_d_integrator
        = clampf (c.i_d_integrator + c.i_d_ki
            * (CurrentController_update_preclamp F c mode sin_theta cos_theta).i_d_setpoint)
            (-5) 5
      ∧ (CurrentController_update_preclamp F c mode sin_theta cos_theta).v_d_setpoint
        = c.i_d_kp * (CurrentController_update_preclamp F c mode sin_theta cos_theta).i_d_setpoint
          + (CurrentController_update_preclamp F c mode sin_theta cos_theta).i_d_integrator)
    ∧ ((CurrentController_update_preclamp F c mode sin_theta cos_theta).i_q_measured
        = (CurrentController_update F sqrtf c mode sin_theta cos_theta v_bus).i_q_measured
      ∧ (CurrentController_update_preclamp F c mode sin_theta cos_theta).i_d_measured
        = (CurrentController_update F sqrtf c mode sin_theta cos_theta v_bus).i_d_measured
      ∧ (CurrentController_update_preclamp F c mode sin_theta cos_theta).i_q_setpoint
        = (CurrentController_update F sqrtf c mode sin_theta cos_theta v_bus).i_q_setpoint
      ∧ (CurrentController_update_preclamp F c mode sin_theta cos_theta).i_d_setpoint
        = (CurrentController_update F sqrtf c mode sin_theta cos_theta v_bus).i_d_setpoint
      ∧ (CurrentController_update_preclamp F c mode sin_theta cos_theta).i_q_integrator
        = (CurrentController_update F sqrtf c mode sin_theta cos_theta v_bus).i_q_integrator
      ∧ (CurrentController_update_preclamp F c mode sin_theta cos_theta).i_d_integrator
        = (CurrentController_update F sqrtf c mode sin_theta cos_theta v_bus).i_d_integrator)
    ∧ (c.i_q_kp = 30 → c.i_q_ki = 0.01 → c.i_q_target = 1 → c.i_q_integrator = 0 →
        (CurrentController_update_preclamp F c mode sin_theta cos_theta).i_q_measured = 0 →
        (CurrentController_update_preclamp F c mode sin_theta cos_theta).v_q_setpoint
          = 30.01) := by
  obtain ⟨⟨q1, q2, q3⟩, ⟨d1, d2, d3⟩⟩ :=
    pi_stages (CurrentController_update_measure F c sin_theta cos_theta) mode hI hV
  simp only [measure_keeps_i_q_target, measure_keeps_i_d_target, measure_keeps_i_q_integrator,
    measure_keeps_i_d_integrator, measure_keeps_i_q_ki, measure_keeps_i_d_ki,
    measure_keeps_i_q_kp, measure_keeps_i_d_kp] at q1 q2 q3 d1 d2 d3
  have mq : (CurrentController_update_preclamp F c mode sin_theta cos_theta).i_q_measured
      = (CurrentController_update_measure F c sin_theta cos_theta).i_q_measured := by
    simp [CurrentController_update_preclamp]
  have md : (CurrentController_update_preclamp F c mode sin_theta cos_theta).i_d_measured
      = (CurrentController_update_measure F c sin_theta cos_theta).i_d_measured := by
    simp [CurrentController_update_preclamp]
  have sq : (CurrentController_update_preclamp F c mode sin_theta cos_theta).i_q_setpoint
      = c.i_q_target - (CurrentController_update_measure F c sin_theta cos_theta).i_q_measured := by
    simp [CurrentController_update_preclamp, q1]
  have sd : (CurrentController_update_preclamp F c mode sin_theta cos_theta).i_d_setpoint
      = c.i_d_target - (CurrentController_update_measure F c sin_theta cos_theta).i_d_measured := by
    simp [CurrentController_update_preclamp, d1]
  have iq : (CurrentController_update_preclamp F c mode sin_theta cos_theta).i_q_integrator
      = clampf (c.i_q_integrator + c.i_q_ki * (c.i_q_target
          - (CurrentController_update_measure F c sin_theta cos_theta).i_q_measured)) (-5) 5 := by
    simp [CurrentController_update_preclamp, q2]
  have id : (CurrentController_update_preclamp F c mode sin_theta cos_theta).i_d_integrator
      = clampf (c.i_d_integrator + c.i_d_ki * (c.i_d_target
          - (CurrentController_update_measure F c sin_theta cos_theta).i_d_measured)) (-5) 5 := by
    simp [CurrentController_update_preclamp, d2]
  have vq : (CurrentController_update_preclamp F c mode sin_theta cos_theta).v_q_setpoint
      = c.i_q_kp * (c.i_q_target
          - (CurrentController_update_measure F c sin_theta cos_theta).i_q_measured)
        + clampf (c.i_q_integrator + c.i_q_ki * (c.i_q_target
          - (CurrentController_update_measure F c sin_theta cos_theta).i_q_measured)) (-5) 5 := q3
  have vd : (CurrentController_update_preclamp F c mode sin_theta cos_theta).v_d_setpoint
      = c.i_d_kp * (c.i_d_target
          - (CurrentController_update_measure F c sin_theta cos_theta).i_d_measured)
        + clampf (c.i_d_integrator + c.i_d_ki * (c.i_d_target
          - (CurrentController_update_measure F c sin_theta cos_theta).i_d_measured)) (-5) 5 := d3
  refine ⟨⟨?_, ?_, ?_⟩, ⟨?_, ?_, ?_⟩, ⟨?_, ?_, ?_, ?_, ?_, ?_⟩, ?_⟩
  · rw [sq, mq]
  · rw [iq, sq]
  · rw [vq, sq, iq]
  · rw [sd, md]
  · rw [id, sd]
  · rw [vd, sd, id]
  · simp [CurrentController_update]
  · simp [CurrentController_update]
  · simp [CurrentController_update]
  · simp [CurrentController_update]
  · simp [CurrentController_update]
  · simp [CurrentController_update]
  · intro hkp hki ht hi hm
    rw [vq, ← mq, hm, hkp, hki, ht, hi]
    have hc : clampf ((0 : α) + 0.01 * (1 - 0)) (-5) 5 = 0.01 := by
      unfold clampf
      rw [if_neg (by norm_num), if_neg (by norm_num)]
      norm_num
    rw [hc]
    norm_num

/-- C6 at a concrete input: the step scenario of the specification (default
gains, `i_q_target = 1`, no current, integrators at 0) in `MODE_CURRENT`
gives the filtered `i_q_measured = 0` and `v_q_setpoint = 30.01` before the
clamp. -/
theorem C6_pi_law_witness :
    (MODE_CURRENT ≠ MODE_IQD_OVERRIDE ∧ MODE_CURRENT ≠ MODE_VQD_OVERRIDE)
    ∧ (CurrentController_update_preclamp (FocMath.standard Real.sqrt)
        (scenario_step : CurrentController ℝ) MODE_CURRENT 0 1).i_q_measured = 0
    ∧ (CurrentController_update_preclamp (FocMath.standard Real.sqrt)
        (scenario_step : CurrentController ℝ) MODE_CURRENT 0 1).v_q_setpoint = 30.01 := by
  have hm : (CurrentController_update_preclamp (FocMath.standard Real.sqrt)
      (scenario_step : CurrentController ℝ) MODE_CURRENT 0 1).i_q_measured = 0 := by
    simp [CurrentController_update_preclamp, CurrentController_update_measure,
      FocMath.standard, scenario_step, CurrentController_init, CurrentController.zeroed]
  exact ⟨⟨by decide, by decide⟩, hm,
    (C6_pi_law (FocMath.standard Real.sqrt) Real.sqrt scenario_step MODE_CURRENT 0 1 12
      (by decide) (by decide)).2.2.2 rfl rfl rfl rfl hm⟩

/-- C7 as amended: a tick in `MODE_DISABLED` does not cancel drive.
`CurrentController_update` has no branch for `MODE_DISABLED` and treats it as
it treats `MODE_CURRENT`: each integrator becomes
`clampf (old integrator + ki * (target - measured)) (-5) 5` and
`(v_a, v_b, v_c)` is recomputed as the inverse-Clarke / SVPWM image of the
`(v_alpha, v_beta)` of the tick. -/
theorem C7_disabled_runs_the_loop (F : FocMath α) (sqrtf : α → α) (c : CurrentController α)
    (sin_theta cos_theta v_bus : α) :
    CurrentController_update F sqrtf c MODE_DISABLED sin_theta cos_theta v_bus
      = CurrentController_update F sqrtf c MODE_CURRENT sin_theta cos_theta v_bus
    ∧ (CurrentController_update F sqrtf c MODE_DISABLED sin_theta cos_theta v_bus).i_q_integrator
      = clampf (c.i_q_integrator + c.i_q_ki * (c.i_q_target
          - (CurrentController_update F sqrtf c MODE_DISABLED sin_theta cos_theta
              v_bus).i_q_measured)) (-5) 5
    ∧ (CurrentController_update F sqrtf c MODE_DISABLED sin_theta cos_theta v_bus).i_d_integrator
      = clampf (c.i_d_integrator + c.i_d_ki * (c.i_d_target
          - (CurrentController_update F sqrtf c MODE_DISABLED sin_theta cos_theta
              v_bus).i_d_measured)) (-5) 5
    ∧ ((CurrentController_update F sqrtf c MODE_DISABLED sin_theta cos_theta v_bus).v_a_setpoint,
        (CurrentController_update F sqrtf c MODE_DISABLED sin_theta cos_theta v_bus).v_b_setpoint,
        (CurrentController_update F sqrtf c MODE_DISABLED sin_theta cos_theta v_bus).v_c_setpoint)
      = F.FOC_invClarkSVPWM
        (CurrentController_update F sqrtf c MODE_DISABLED sin_theta cos_theta
          v_bus).v_alpha_setpoint
        (CurrentController_update F sqrtf c MODE_DISABLED sin_theta cos_theta
          v_bus).v_beta_setpoint := by
  obtain ⟨⟨_, q2, _⟩, ⟨_, d2, _⟩⟩ :=
    pi_stages (CurrentController_update_measure F c sin_theta cos_theta) MODE_DISABLED
      (by decide) (by decide)
  refine ⟨rfl, ?_, ?_, ?_⟩
  · rw [(update_integrators F sqrtf c _ sin_theta cos_theta v_bus).1, q2]
    simp [CurrentController_update, CurrentController_update_preclamp]
  · rw [(update_integrators F sqrtf c _ sin_theta cos_theta v_bus).2, d2]
    simp [CurrentController_update, CurrentController_update_preclamp]
  · exact output_svpwm F _ MODE_DISABLED sin_theta cos_theta (by decide)

/-- C7 refuted at a concrete input: default gains, no current, no target, `1`
left in the q integrator, `sin_theta = 1`, `cos_theta = 0`, `v_bus = 12`.
A tick in `MODE_DISABLED` leaves the q integrator at `1`, not `0`, and moves
`v_a_setpoint` from `0` to `-3/4` (the primitives being `FocMath.standard`). -/
theorem C7_disabled_counterexample :
    ((CurrentController_update (FocMath.standard Real.sqrt) Real.sqrt
        (scenario_disable : CurrentController ℝ) MODE_DISABLED 1 0 12).i_q_integrator = 1
      ∧ (CurrentController_update (FocMath.standard Real.sqrt) Real.sqrt
        (scenario_disable : CurrentController ℝ) MODE_DISABLED 1 0 12).i_q_integrator ≠ 0)
    ∧ ((CurrentController_update (FocMath.standard Real.sqrt) Real.sqrt
        (scenario_disable : CurrentController ℝ) MODE_DISABLED 1 0 12).v_a_setpoint = -3 / 4
      ∧ (CurrentController_update (FocMath.standard Real.sqrt) Real.sqrt
        (scenario_disable : CurrentController ℝ) MODE_DISABLED 1 0 12).v_a_setpoint
        ≠ (scenario_disable : CurrentController ℝ).v_a_setpoint) := by
  have hi : (CurrentController_update (FocMath.standard Real.sqrt) Real.sqrt
      (scenario_disable : CurrentController ℝ) MODE_DISABLED 1 0 12).i_q_integrator = 1 := by
    simp [CurrentController_update, CurrentController_update_preclamp,
      CurrentController_update_integrate, CurrentController_update_measure,
      FocMath.standard, scenario_disable, CurrentController_init, CurrentController.zeroed,
      clampf]
    norm_num
  have ha : (CurrentController_update (FocMath.standard Real.sqrt) Real.sqrt
      (scenario_disable : CurrentController ℝ) MODE_DISABLED 1 0 12).v_a_setpoint = -3 / 4 := by
    simp [CurrentController_update, CurrentController_update_preclamp,
      CurrentController_update_output, CurrentController_update_clamp,
      CurrentController_update_voltage, CurrentController_update_integrate,
      CurrentController_update_measure, FocMath.standard, scenario_disable,
      CurrentController_init, CurrentController.zeroed, clampf]
    norm_num
  have h0 : (scenario_disable : CurrentController ℝ).v_a_setpoint = 0 := rfl
  refine ⟨⟨hi, ?_⟩, ha, ?_⟩
  · rw [hi]; norm_num
  · rw [ha, h0]; norm_num

/-- C8: with `mode = MODE_VALPHABETA_OVERRIDE` or `mode = MODE_CALIBRATION`,
`CurrentController_update` leaves `v_alpha_setpoint` and `v_beta_setpoint` as
they were before the call. -/
theorem C8_valphabeta_kept (F : FocMath α) (sqrtf : α → α) (c : CurrentController α)
    (sin_theta cos_theta v_bus : α) :
    ((CurrentController_update F sqrtf c MODE_VALPHABETA_OVERRIDE sin_theta cos_theta
        v_bus).v_alpha_setpoint = c.v_alpha_setpoint
      ∧ (CurrentController_update F sqrtf c MODE_VALPHABETA_OVERRIDE sin_theta cos_theta
        v_bus).v_beta_setpoint = c.v_beta_setpoint)
    ∧ ((CurrentController_update F sqrtf c MODE_CALIBRATION sin_theta cos_theta
        v_bus).v_alpha_setpoint = c.v_alpha_setpoint
      ∧ (CurrentController_update F sqrtf c MODE_CALIBRATION sin_theta cos_theta
        v_bus).v_beta_setpoint = c.v_beta_setpoint) := by
  constructor
  · have h := output_skips_inv_park F
      (CurrentController_update_clamp sqrtf
        (CurrentController_update_preclamp F c MODE_VALPHABETA_OVERRIDE sin_theta cos_theta)
        v_bus) MODE_VALPHABETA_OVERRIDE sin_theta cos_theta (Or.inl rfl)
    simpa [CurrentController_update, CurrentController_update_preclamp] using h
  · have h := output_skips_inv_park F
      (CurrentController_update_clamp sqrtf
        (CurrentController_update_preclamp F c MODE_CALIBRATION sin_theta cos_theta)
        v_bus) MODE_CALIBRATION sin_theta cos_theta (Or.inr rfl)
    simpa [CurrentController_update, CurrentController_update_preclamp] using h

/-- C9: with `mode = MODE_VABC_OVERRIDE`, `CurrentController_update` leaves
`v_a_setpoint`, `v_b_setpoint`, `v_c_setpoint` as they were before the call;
in every other mode they are the inverse-Clarke / SVPWM image of the
`(v_alpha_setpoint, v_beta_setpoint)` held at the end of the tick. -/
theorem C9_vabc_kept_or_svpwm (F : FocMath α) (sqrtf : α → α) (c : CurrentController α)
    (sin_theta cos_theta v_bus : α) :
    ((CurrentController_update F sqrtf c MODE_VABC_OVERRIDE sin_theta cos_theta
        v_bus).v_a_setpoint = c.v_a_setpoint
      ∧ (CurrentController_update F sqrtf c MODE_VABC_OVERRIDE sin_theta cos_theta
        v_bus).v_b_setpoint = c.v_b_setpoint
      ∧ (CurrentController_update F sqrtf c MODE_VABC_OVERRIDE sin_theta cos_theta
        v_bus).v_c_setpoint = c.v_c_setpoint)
    ∧ ∀ mode : Mode, mode ≠ MODE_VABC_OVERRIDE →
      ((CurrentController_update F sqrtf c mode sin_theta cos_theta v_bus).v_a_setpoint,
        (CurrentController_update F sqrtf c mode sin_theta cos_theta v_bus).v_b_setpoint,
        (CurrentController_update F sqrtf c mode sin_theta cos_theta v_bus).v_c_setpoint)
      = F.FOC_invClarkSVPWM
        (CurrentController_update F sqrtf c mode sin_theta cos_theta v_bus).v_alpha_setpoint
        (CurrentController_update F sqrtf c mode sin_theta cos_theta v_bus).v_beta_setpoint := by
  constructor
  · have h := output_vabc_override F
      (CurrentController_update_clamp sqrtf
        (CurrentController_update_preclamp F c MODE_VABC_OVERRIDE sin_theta cos_theta)
        v_bus) sin_theta cos_theta
    simpa [CurrentController_update, CurrentController_update_preclamp] using h
  · intro mode h
    exact output_svpwm F _ mode sin_theta cos_theta h

/-- C9 at concrete inputs: phase voltages `(1, 2, 3)` written before a tick in
`MODE_VABC_OVERRIDE` are still there after it, and after a tick of the step
scenario in `MODE_CURRENT` the phase voltages are the image of the
`(v_alpha, v_beta)` of the tick. -/
theorem C9_vabc_kept_or_svpwm_witness :
    ((CurrentController_update (FocMath.standard Real.sqrt) Real.sqrt
        (scenario_vabc : CurrentController ℝ) MODE_VABC_OVERRIDE 0 1 12).v_a_setpoint = 1
      ∧ (CurrentController_update (FocMath.standard Real.sqrt) Real.sqrt
        (scenario_vabc : CurrentController ℝ) MODE_VABC_OVERRIDE 0 1 12).v_b_setpoint = 2
      ∧ (CurrentController_update (FocMath.standard Real.sqrt) Real.sqrt
        (scenario_vabc : CurrentController ℝ) MODE_VABC_OVERRIDE 0 1 12).v_c_setpoint = 3)
    ∧ MODE_CURRENT ≠ MODE_VABC_OVERRIDE
    ∧ ((CurrentController_update (FocMath.standard Real.sqrt) Real.sqrt
          (scenario_step : CurrentController ℝ) MODE_CURRENT 0 1 12).v_a_setpoint,
        (CurrentController_update (FocMath.standard Real.sqrt) Real.sqrt
          (scenario_step : CurrentController ℝ) MODE_CURRENT 0 1 12).v_b_setpoint,
        (CurrentController_update (FocMath.standard Real.sqrt) Real.sqrt
          (scenario_step : CurrentController ℝ) MODE_CURRENT 0 1 12).v_c_setpoint)
      = (FocMath.standard Real.sqrt).FOC_invClarkSVPWM
        (CurrentController_update (FocMath.standard Real.sqrt) Real.sqrt
          (scenario_step : CurrentController ℝ) MODE_CURRENT 0 1 12).v_alpha_setpoint
        (CurrentController_update (FocMath.standard Real.sqrt) Real.sqrt
          (scenario_step : CurrentController ℝ) MODE_CURRENT 0 1 12).v_beta_setpoint :=
  ⟨(C9_vabc_kept_or_svpwm (FocMath.standard Real.sqrt) Real.sqrt scenario_vabc 0 1 12).1,
    by decide,
    (C9_vabc_kept_or_svpwm (FocMath.standard Real.sqrt) Real.sqrt scenario_step 0 1 12).2
      MODE_CURRENT (by decide)⟩

/-- C10: with `mode = MODE_VQD_OVERRIDE`, whenever `v_bus ≤ 0` or
`v_q_setpoint² + v_d_setpoint² ≤ 1.15 · v_bus²`, `CurrentController_update`
leaves `v_q_setpoint` and `v_d_setpoint` as they were before the call. -/
theorem C10_vqd_override_kept (F : FocMath α) (sqrtf : α → α) (c : CurrentController α)
    (sin_theta cos_theta v_bus : α)
    (h : v_bus ≤ 0 ∨ c.v_q_setpoint ^ 2 + c.v_d_setpoint ^ 2 ≤ 1.15 * v_bus ^ 2) :
    (CurrentController_update F sqrtf c MODE_VQD_OVERRIDE sin_theta cos_theta v_bus).v_q_setpoint
      = c.v_q_setpoint
    ∧ (CurrentController_update F sqrtf c MODE_VQD_OVERRIDE sin_theta cos_theta v_bus).v_d_setpoint
      = c.v_d_setpoint := by
  obtain ⟨hq, hd⟩ := preclamp_vqd_override F c sin_theta cos_theta
  have hc := clamp_idle sqrtf
    (CurrentController_update_preclamp F c MODE_VQD_OVERRIDE sin_theta cos_theta) v_bus
    (by
      rw [hq, hd]
      rcases h with h | h
      · exact Or.inl h
      · exact Or.inr (by rw [← pow_two, ← pow_two, ← pow_two, mul_comm]; exact h))
  rw [(update_vqd F sqrtf c _ sin_theta cos_theta v_bus).1,
    (update_vqd F sqrtf c _ sin_theta cos_theta v_bus).2, hc]
  exact ⟨hq, hd⟩

/-- C10 at a concrete input: `(v_q, v_d) = (3, 4)` written before a tick in
`MODE_VQD_OVERRIDE` at `v_bus = 12` (`25 ≤ 165.6`) is still there after it. -/
theorem C10_vqd_override_kept_witness :
    ((12 : ℝ) ≤ 0 ∨ (scenario_vqd : CurrentController ℝ).v_q_setpoint ^ 2
        + (scenario_vqd : CurrentController ℝ).v_d_setpoint ^ 2 ≤ 1.15 * (12 : ℝ) ^ 2)
    ∧ (CurrentController_update (FocMath.standard Real.sqrt) Real.sqrt
        (scenario_vqd : CurrentController ℝ) MODE_VQD_OVERRIDE 0 1 12).v_q_setpoint = 3
    ∧ (CurrentController_update (FocMath.standard Real.sqrt) Real.sqrt
        (scenario_vqd : CurrentController ℝ) MODE_VQD_OVERRIDE 0 1 12).v_d_setpoint = 4 := by
  have h : (12 : ℝ) ≤ 0 ∨ (scenario_vqd : CurrentController ℝ).v_q_setpoint ^ 2
      + (scenario_vqd : CurrentController ℝ).v_d_setpoint ^ 2 ≤ 1.15 * (12 : ℝ) ^ 2 := by
    right
    norm_num [scenario_vqd]
  exact ⟨h, C10_vqd_override_kept (FocMath.standard Real.sqrt) Real.sqrt scenario_vqd 0 1 12 h⟩

/-- C12: whatever the record held, `CurrentController_init` leaves
`current_filter_alpha = 0.2`, `i_q_kp = i_d_kp = 30`, `i_q_ki = i_d_ki = 0.01`
and `i_q_measured = i_d_measured = 0`. -/
theorem C12_init_defaults (c : CurrentController α) :
    (CurrentController_init c).current_filter_alpha = 0.2
    ∧ ((CurrentController_init c).i_q_kp = 30 ∧ (CurrentController_init c).i_d_kp = 30)
    ∧ ((CurrentController_init c).i_q_ki = 0.01 ∧ (CurrentController_init c).i_d_ki = 0.01)
    ∧ ((CurrentController_init c).i_q_measured = 0 ∧ (CurrentController_init c).i_d_measured = 0) :=
  ⟨rfl, ⟨rfl, rfl⟩, ⟨rfl, rfl⟩, ⟨rfl, rfl⟩⟩

/-- C15: when `v_bus > 0` and the clamp triggers (the vector before the clamp
has `v_q² + v_d² > 1.15 · v_bus²`), the `(v_q_setpoint, v_d_setpoint)` that
`CurrentController_update` leaves is a strictly positive multiple of the
vector before the clamp: the cross product vanishes and each component keeps
its sign. -/
theorem C15_clamp_keeps_direction (F : FocMath ℝ) (c : CurrentController ℝ) (mode : Mode)
    (sin_theta cos_theta v_bus : ℝ) (h1 : 0 < v_bus)
    (h2 : 1.15 * v_bus ^ 2
      < (CurrentController_update_preclamp F c mode sin_theta cos_theta).v_q_setpoint ^ 2
        + (CurrentController_update_preclamp F c mode sin_theta cos_theta).v_d_setpoint ^ 2) :
    (∃ k : ℝ, 0 < k
      ∧ (CurrentController_update F Real.sqrt c mode sin_theta cos_theta v_bus).v_q_setpoint
        = k * (CurrentController_update_preclamp F c mode sin_theta cos_theta).v_q_setpoint
      ∧ (CurrentController_update F Real.sqrt c mode sin_theta cos_theta v_bus).v_d_setpoint
        = k * (CurrentController_update_preclamp F c mode sin_theta cos_theta).v_d_setpoint)
    ∧ (CurrentController_update F Real.sqrt c mode sin_theta cos_theta v_bus).v_q_setpoint
        * (CurrentController_update_preclamp F c mode sin_theta cos_theta).v_d_setpoint
      = (CurrentController_update F Real.sqrt c mode sin_theta cos_theta v_bus).v_d_setpoint
        * (CurrentController_update_preclamp F c mode sin_theta cos_theta).v_q_setpoint
    ∧ ((0 < (CurrentController_update F Real.sqrt c mode sin_theta cos_theta v_bus).v_q_setpoint
        ↔ 0 < (CurrentController_update_preclamp F c mode sin_theta cos_theta).v_q_setpoint)
      ∧ ((CurrentController_update F Real.sqrt c mode sin_theta cos_theta v_bus).v_q_setpoint < 0
        ↔ (CurrentController_update_preclamp F c mode sin_theta cos_theta).v_q_setpoint < 0))
    ∧ ((0 < (CurrentController_update F Real.sqrt c mode sin_theta cos_theta v_bus).v_d_setpoint
        ↔ 0 < (CurrentController_update_preclamp F c mode sin_theta cos_theta).v_d_setpoint)
      ∧ ((CurrentController_update F Real.sqrt c mode sin_theta cos_theta v_bus).v_d_setpoint < 0
        ↔ (CurrentController_update_preclamp F c mode sin_theta cos_theta).v_d_setpoint < 0)) := by
  have hmax : 0 < v_bus * v_bus * 1.15 := by positivity
  have h2' : v_bus * v_bus * 1.15
      < (CurrentController_update_preclamp F c mode sin_theta cos_theta).v_q_setpoint
          * (CurrentController_update_preclamp F c mode sin_theta cos_theta).v_q_setpoint
        + (CurrentController_update_preclamp F c mode sin_theta cos_theta).v_d_setpoint
          * (CurrentController_update_preclamp F c mode sin_theta cos_theta).v_d_setpoint := by
    nlinarith [h2]
  obtain ⟨hq, hd⟩ := clamp_triggered Real.sqrt
    (CurrentController_update_preclamp F c mode sin_theta cos_theta) v_bus h1 h2'
  rw [← (update_vqd F Real.sqrt c mode sin_theta cos_theta v_bus).1] at hq
  rw [← (update_vqd F Real.sqrt c mode sin_theta cos_theta v_bus).2] at hd
  have hk : 0 < Real.sqrt |((CurrentController_update_preclamp F c mode sin_theta
        cos_theta).v_q_setpoint
      * (CurrentController_update_preclamp F c mode sin_theta cos_theta).v_q_setpoint
      + (CurrentController_update_preclamp F c mode sin_theta cos_theta).v_d_setpoint
      * (CurrentController_update_preclamp F c mode sin_theta cos_theta).v_d_setpoint)
      / (v_bus * v_bus * 1.15)| :=
    Real.sqrt_pos.2 (abs_pos.2 (ne_of_gt (div_pos (lt_trans hmax h2') hmax)))
  refine ⟨⟨_, hk, by rw [hq, mul_comm], by rw [hd, mul_comm]⟩, ?_, ⟨?_, ?_⟩, ⟨?_, ?_⟩⟩
  · rw [hq, hd]; ring
  · rw [hq]; exact ⟨fun h => (pos_iff_pos_of_mul_pos h).2 hk, fun h => mul_pos h hk⟩
  · rw [hq]
    exact ⟨fun h => by
      by_contra hn
      exact absurd h (not_lt.mpr (mul_nonneg (not_lt.mp hn) hk.le)),
      fun h => mul_neg_of_neg_of_pos h hk⟩
  · rw [hd]; exact ⟨fun h => (pos_iff_pos_of_mul_pos h).2 hk, fun h => mul_pos h hk⟩
  · rw [hd]
    exact ⟨fun h => by
      by_contra hn
      exact absurd h (not_lt.mpr (mul_nonneg (not_lt.mp hn) hk.le)),
      fun h => mul_neg_of_neg_of_pos h hk⟩

/-- C15 at a concrete input: the request `(20, 20)` held in
`MODE_VQD_OVERRIDE` at `v_bus = 12` triggers the clamp (`800 > 165.6`), and
the vector the tick leaves is a positive multiple of `(20, 20)`. -/
theorem C15_clamp_keeps_direction_witness :
    (0 : ℝ) < 12
    ∧ 1.15 * (12 : ℝ) ^ 2
      < (CurrentController_update_preclamp (FocMath.standard Real.sqrt)
          (scenario_overmodulation : CurrentController ℝ) MODE_VQD_OVERRIDE 0 1).v_q_setpoint ^ 2
        + (CurrentController_update_preclamp (FocMath.standard Real.sqrt)
          (scenario_overmodulation : CurrentController ℝ) MODE_VQD_OVERRIDE 0 1).v_d_setpoint ^ 2
    ∧ ∃ k : ℝ, 0 < k
      ∧ (CurrentController_update (FocMath.standard Real.sqrt) Real.sqrt
          (scenario_overmodulation : CurrentController ℝ) MODE_VQD_OVERRIDE 0 1 12).v_q_setpoint
        = k * 20
      ∧ (CurrentController_update (FocMath.standard Real.sqrt) Real.sqrt
          (scenario_overmodulation : CurrentController ℝ) MODE_VQD_OVERRIDE 0 1 12).v_d_setpoint
        = k * 20 := by
  obtain ⟨pq, pd⟩ := preclamp_vqd_override (FocMath.standard Real.sqrt)
    (scenario_overmodulation : CurrentController ℝ) 0 1
  have q : (scenario_overmodulation : CurrentController ℝ).v_q_setpoint = 20 := rfl
  have d : (scenario_overmodulation : CurrentController ℝ).v_d_setpoint = 20 := rfl
  rw [q] at pq
  rw [d] at pd
  have h2 : 1.15 * (12 : ℝ) ^ 2
      < (CurrentController_update_preclamp (FocMath.standard Real.sqrt)
          (scenario_overmodulation : CurrentController ℝ) MODE_VQD_OVERRIDE 0 1).v_q_setpoint ^ 2
        + (CurrentController_update_preclamp (FocMath.standard Real.sqrt)
          (scenario_overmodulation : CurrentController ℝ) MODE_VQD_OVERRIDE 0 1).v_d_setpoint ^ 2 := by
    rw [pq, pd]; norm_num
  have h := (C15_clamp_keeps_direction (FocMath.standard Real.sqrt) scenario_overmodulation
    MODE_VQD_OVERRIDE 0 1 12 (by norm_num) h2).1
  rw [pq, pd] at h
  exact ⟨by norm_num, h2, h⟩

/-- C16: with `mode = MODE_IQD_OVERRIDE`, `CurrentController_update` leaves
`i_q_setpoint` and `i_d_setpoint` as they were, and when the clamp does not
trigger (`v_bus ≤ 0`, or the proportional vector is within `1.15 · v_bus²`)
the commanded voltage is `i_q_kp * i_q_setpoint` and `i_d_kp * i_d_setpoint`. -/
theorem C16_iqd_override_proportional (F : FocMath α) (sqrtf : α → α)
    (c : CurrentController α) (sin_theta cos_theta v_bus : α) :
    ((CurrentController_update F sqrtf c MODE_IQD_OVERRIDE sin_theta cos_theta v_bus).i_q_setpoint
        = c.i_q_setpoint
      ∧ (CurrentController_update F sqrtf c MODE_IQD_OVERRIDE sin_theta cos_theta v_bus).i_d_setpoint
        = c.i_d_setpoint)
    ∧ ((v_bus ≤ 0 ∨ (c.i_q_kp * c.i_q_setpoint) ^ 2 + (c.i_d_kp * c.i_d_setpoint) ^ 2
          ≤ 1.15 * v_bus ^ 2) →
      (CurrentController_update F sqrtf c MODE_IQD_OVERRIDE sin_theta cos_theta v_bus).v_q_setpoint
        = c.i_q_kp * c.i_q_setpoint
      ∧ (CurrentController_update F sqrtf c MODE_IQD_OVERRIDE sin_theta cos_theta v_bus).v_d_setpoint
        = c.i_d_kp * c.i_d_setpoint) := by
  obtain ⟨⟨sq, sd⟩, ⟨vq, vd⟩⟩ := preclamp_iqd_override F c sin_theta cos_theta
  constructor
  · constructor
    · simpa [CurrentController_update] using sq
    · simpa [CurrentController_update] using sd
  · intro h
    have hc := clamp_idle sqrtf
      (CurrentController_update_preclamp F c MODE_IQD_OVERRIDE sin_theta cos_theta) v_bus
      (by
        rw [vq, vd]
        rcases h with h | h
        · exact Or.inl h
        · exact Or.inr (le_of_eq_of_le (by ring) (le_of_le_of_eq h (by ring))))
    rw [(update_vqd F sqrtf c _ sin_theta cos_theta v_bus).1,
      (update_vqd F sqrtf c _ sin_theta cos_theta v_bus).2, hc]
    exact ⟨vq, vd⟩

/-- C16 at a concrete input: setpoints `(0.1, 0)` written before a tick in
`MODE_IQD_OVERRIDE` at `v_bus = 12` with default gains (`3² + 0² ≤ 165.6`)
are still there after it, and the tick commands `(v_q, v_d) = (3, 0)`. -/
theorem C16_iqd_override_proportional_witness :
    ((12 : ℝ) ≤ 0 ∨ ((scenario_iqd : CurrentController ℝ).i_q_kp
          * (scenario_iqd : CurrentController ℝ).i_q_setpoint) ^ 2
        + ((scenario_iqd : CurrentController ℝ).i_d_kp
          * (scenario_iqd : CurrentController ℝ).i_d_setpoint) ^ 2 ≤ 1.15 * (12 : ℝ) ^ 2)
    ∧ ((CurrentController_update (FocMath.standard Real.sqrt) Real.sqrt
          (scenario_iqd : CurrentController ℝ) MODE_IQD_OVERRIDE 0 1 12).i_q_setpoint = 0.1
      ∧ (CurrentController_update (FocMath.standard Real.sqrt) Real.sqrt
          (scenario_iqd : CurrentController ℝ) MODE_IQD_OVERRIDE 0 1 12).i_d_setpoint = 0)
    ∧ ((CurrentController_update (FocMath.standard Real.sqrt) Real.sqrt
          (scenario_iqd : CurrentController ℝ) MODE_IQD_OVERRIDE 0 1 12).v_q_setpoint = 3
      ∧ (CurrentController_update (FocMath.standard Real.sqrt) Real.sqrt
          (scenario_iqd : CurrentController ℝ) MODE_IQD_OVERRIDE 0 1 12).v_d_setpoint = 0) := by
  have kq : (scenario_iqd : CurrentController ℝ).i_q_kp = 30 := rfl
  have kd : (scenario_iqd : CurrentController ℝ).i_d_kp = 30 := rfl
  have sq : (scenario_iqd : CurrentController ℝ).i_q_setpoint = 0.1 := rfl
  have sd : (scenario_iqd : CurrentController ℝ).i_d_setpoint = 0 := rfl
  have h : (12 : ℝ) ≤ 0 ∨ ((scenario_iqd : CurrentController ℝ).i_q_kp
        * (scenario_iqd : CurrentController ℝ).i_q_setpoint) ^ 2
      + ((scenario_iqd : CurrentController ℝ).i_d_kp
        * (scenario_iqd : CurrentController ℝ).i_d_setpoint) ^ 2 ≤ 1.15 * (12 : ℝ) ^ 2 := by
    right
    rw [kq, kd, sq, sd]
    norm_num
  have t := C16_iqd_override_proportional (FocMath.standard Real.sqrt) Real.sqrt
    (scenario_iqd : CurrentController ℝ) 0 1 12
  have v := t.2 h
  rw [kq, kd, sq, sd] at v
  refine ⟨h, t.1, ?_, ?_⟩
  · rw [v.1]; norm_num
  · rw [v.2]; norm_num

/-- C17: `CurrentController_update` writes none of the fields other writers
own: the targets, the four gains, the filter coefficient and the sampled
phase currents are after the call what they were before it, in every mode
and for every input. -/
theorem C17_update_frame (F : FocMath α) (sqrtf : α → α) (c : CurrentController α)
    (mode : Mode) (sin_theta cos_theta v_bus : α) :
    ((CurrentController_update F sqrtf c mode sin_theta cos_theta v_bus).i_q_target = c.i_q_target
      ∧ (CurrentController_update F sqrtf c mode sin_theta cos_theta v_bus).i_d_target
        = c.i_d_target)
    ∧ ((CurrentController_update F sqrtf c mode sin_theta cos_theta v_bus).i_q_kp = c.i_q_kp
      ∧ (CurrentController_update F sqrtf c mode sin_theta cos_theta v_bus).i_q_ki = c.i_q_ki
      ∧ (CurrentController_update F sqrtf c mode sin_theta cos_theta v_bus).i_d_kp = c.i_d_kp
      ∧ (CurrentController_update F sqrtf c mode sin_theta cos_theta v_bus).i_d_ki = c.i_d_ki)
    ∧ (CurrentController_update F sqrtf c mode sin_theta cos_theta v_bus).current_filter_alpha
      = c.current_filter_alpha
    ∧ ((CurrentController_update F sqrtf c mode sin_theta cos_theta v_bus).i_a_measured
        = c.i_a_measured
      ∧ (CurrentController_update F sqrtf c mode sin_theta cos_theta v_bus).i_b_measured
        = c.i_b_measured
      ∧ (CurrentController_update F sqrtf c mode sin_theta cos_theta v_bus).i_c_measured
        = c.i_c_measured) := by
  simp [CurrentController_update, CurrentController_update_preclamp]

end Claims

/-! ## The claims on the configuration headers -/

section Headers

/-- The values of the G431-DRV8350RS `Mode` enumerators are the codes of the
constructors of `Mode`, in the same order. -/
theorem Mode_code_matches_header :
    Mode.all.map Mode.code = DRV8350RS.Mode_enum.map Prod.snd := by decide

/-- Distinct constructors of `Mode` have distinct codes, so comparing modes is
comparing codes, as the C code does. -/
theorem Mode_code_injective (m n : Mode) (h : m.code = n.code) : m = n := by
  cases m <;> cases n <;> first | rfl | (exact absurd h (by decide))

/-- OR-ing a flag `f` into an accumulated value `x` leaves every bit of a flag
`g` with `f &&& g = 0` as it was. -/
theorem or_flag_keeps_other (x f g : Nat) (h : f &&& g = 0) :
    (x ||| f) &&& g = x &&& g := by
  rw [Nat.and_distrib_right, h, Nat.or_zero]

/-- The number 3 is not a power of two. -/
theorem three_not_pow_two : ¬ ∃ k : Nat, 3 = 2 ^ k := by
  rintro ⟨k, hk⟩
  cases k with
  | zero => simp at hk
  | succ k => omega

/-- C11 refuted on the G431-DRV8350RS variant: `ERROR_INVALID_MODE` is 2 and
`ERROR_INVALID_MODE_SWITCH` is 3 there; 3 is not a power of two, the bitwise
AND of the two is 2, and OR-ing `ERROR_INVALID_MODE_SWITCH` into an empty
error word sets the bit of `ERROR_INVALID_MODE`. -/
theorem C11_drv8350rs_counterexample :
    ("ERROR_INVALID_MODE", 2) ∈ DRV8350RS.ErrorCode_enum
    ∧ ("ERROR_INVALID_MODE_SWITCH", 3) ∈ DRV8350RS.ErrorCode_enum
    ∧ (¬ ∃ k : Nat, 3 = 2 ^ k)
    ∧ 2 &&& 3 ≠ 0
    ∧ (0 ||| 3) &&& 2 ≠ 0 &&& 2 :=
  ⟨by decide, by decide, three_not_pow_two, by decide, by decide⟩

/-- C11 as amended: in the B-G431B-ESC1 variant `ErrorCode` is a bitmask:
every value other than `ERROR_NO_ERROR` is a power of two, the values are
pairwise distinct, the bitwise AND of two different flags is 0, and OR-ing a
flag into any accumulated value leaves the bits of every other flag as they
were.  In the G431-DRV8350RS variant the values are the consecutive codes
`0, 1, ..., 9`: pairwise distinct, not a bitmask. -/
theorem C11_error_code_values :
    ((∀ e ∈ ESC1.ErrorCode_enum, e.1 ≠ "ERROR_NO_ERROR" → ∃ k : Nat, e.2 = 2 ^ k)
      ∧ (ESC1.ErrorCode_enum.map Prod.snd).Nodup
      ∧ (∀ e ∈ ESC1.ErrorCode_enum, ∀ f ∈ ESC1.ErrorCode_enum, e.1 ≠ f.1 → e.2 &&& f.2 = 0)
      ∧ (∀ x : Nat, ∀ e ∈ ESC1.ErrorCode_enum, ∀ f ∈ ESC1.ErrorCode_enum, e.1 ≠ f.1 →
          (x ||| e.2) &&& f.2 = x &&& f.2))
    ∧ (DRV8350RS.ErrorCode_enum.map Prod.snd = List.range 10
      ∧ (DRV8350RS.ErrorCode_enum.map Prod.snd).Nodup) := by
  have hand : ∀ e ∈ ESC1.ErrorCode_enum, ∀ f ∈ ESC1.ErrorCode_enum, e.1 ≠ f.1 →
      e.2 &&& f.2 = 0 := by decide
  have hpow : ∀ e ∈ ESC1.ErrorCode_enum, e.1 ≠ "ERROR_NO_ERROR" →
      ∃ k, k < 16 ∧ e.2 = 2 ^ k := by decide
  refine ⟨⟨?_, by decide, hand, ?_⟩, by decide, by decide⟩
  · intro e he hne
    obtain ⟨k, _, hk⟩ := hpow e he hne
    exact ⟨k, hk⟩
  · intro x e he f hf hne
    exact or_flag_keeps_other x e.2 f.2 (hand e he f hf hne)

/-- C13 refuted: the G431-DRV8350RS enumeration has twelve modes and no
`MODE_DAMPING`; the B-G431B-ESC1 enumeration has twelve modes and no
`MODE_IQD_OVERRIDE`. -/
theorem C13_twelve_modes_counterexample :
    (DRV8350RS.Mode_enum.length = 12 ∧ "MODE_DAMPING" ∉ DRV8350RS.Mode_enum.map Prod.fst)
    ∧ (ESC1.Mode_enum.length = 12 ∧ "MODE_IQD_OVERRIDE" ∉ ESC1.Mode_enum.map Prod.fst) := by
  decide

/-- C13 as amended: the `Mode` enumeration of B-G431B-ESC1 defines the twelve
modes that are the thirteen without `MODE_IQD_OVERRIDE`, that of
G431-DRV8350RS the twelve that are the thirteen without `MODE_DAMPING`;
within each variant the numeric codes are pairwise distinct, and the two
variants together define exactly the thirteen modes. -/
theorem C13_mode_enumerations :
    (ESC1.Mode_enum.map Prod.fst
        = ["MODE_DISABLED", "MODE_IDLE", "MODE_DAMPING", "MODE_CALIBRATION", "MODE_CURRENT",
            "MODE_TORQUE", "MODE_VELOCITY", "MODE_POSITION", "MODE_VABC_OVERRIDE",
            "MODE_VALPHABETA_OVERRIDE", "MODE_VQD_OVERRIDE", "MODE_DEBUG"]
      ∧ (ESC1.Mode_enum.map Prod.snd).Nodup)
    ∧ (DRV8350RS.Mode_enum.map Prod.fst
        = ["MODE_DISABLED", "MODE_IDLE", "MODE_CALIBRATION", "MODE_CURRENT", "MODE_TORQUE",
            "MODE_VELOCITY", "MODE_POSITION", "MODE_VABC_OVERRIDE", "MODE_VALPHABETA_OVERRIDE",
            "MODE_VQD_OVERRIDE", "MODE_IQD_OVERRIDE", "MODE_DEBUG"]
      ∧ (DRV8350RS.Mode_enum.map Prod.snd).Nodup)
    ∧ ((ESC1.Mode_enum.map Prod.fst ∪ DRV8350RS.Mode_enum.map Prod.fst).length = 13
      ∧ ∀ n ∈ ["MODE_DISABLED", "MODE_IDLE", "MODE_DAMPING", "MODE_CALIBRATION", "MODE_CURRENT",
            "MODE_TORQUE", "MODE_VELOCITY", "MODE_POSITION", "MODE_VABC_OVERRIDE",
            "MODE_VALPHABETA_OVERRIDE", "MODE_VQD_OVERRIDE", "MODE_IQD_OVERRIDE", "MODE_DEBUG"],
          n ∈ ESC1.Mode_enum.map Prod.fst ∪ DRV8350RS.Mode_enum.map Prod.fst) := by
  decide

/-- C14: the configured `DEVICE_CAN_ID` of each firmware variant (2 on
B-G431B-ESC1, 1 on G431-DRV8350RS) is a 6-bit value in `[1, 63]`. -/
theorem C14_device_can_id_in_range :
    (1 ≤ ESC1.DEVICE_CAN_ID ∧ ESC1.DEVICE_CAN_ID ≤ 63)
    ∧ (1 ≤ DRV8350RS.DEVICE_CAN_ID ∧ DRV8350RS.DEVICE_CAN_ID ≤ 63)
    ∧ 63 < 2 ^ 6 := by
  decide

/-- C18 (defect of the code): the profile `MOTORPROFILE_MAD_5010_310KV`
defines `MOTOR_KV_RATING` as 370, not the 310 of its name (its resistance and
inductance are those of `MOTORPROFILE_MAD_M6C12_150KV`).  The other three
profiles carry the Kv of their name, and all four have positive pole pairs,
phase resistance and phase inductance. -/
theorem C18_profile_310KV_rated_370 :
    (ESC1.MOTORPROFILE_MAD_5010_310KV.MOTOR_KV_RATING = 370
      ∧ ESC1.MOTORPROFILE_MAD_5010_310KV.MOTOR_KV_RATING ≠ 310)
    ∧ (ESC1.MOTORPROFILE_MAD_M6C12_150KV.MOTOR_KV_RATING = 150
      ∧ ESC1.MOTORPROFILE_MAD_5010_110KV.MOTOR_KV_RATING = 110
      ∧ ESC1.MOTORPROFILE_MAD_5010_370KV.MOTOR_KV_RATING = 370)
    ∧ ∀ p ∈ ESC1.motor_profiles,
        0 < p.MOTOR_POLE_PAIRS ∧ 0 < p.MOTOR_PHASE_RESISTANCE ∧ 0 < p.MOTOR_PHASE_INDUCTANCE := by
  refine ⟨⟨rfl, by decide⟩, ⟨rfl, rfl, rfl⟩, ?_⟩
  intro p hp
  simp only [ESC1.motor_profiles, List.mem_cons, List.mem_singleton, List.not_mem_nil,
    or_false] at hp
  rcases hp with h | h | h | h <;> subst h <;>
    refine ⟨by decide, ?_, ?_⟩ <;>
    norm_num [ESC1.MOTORPROFILE_MAD_M6C12_150KV, ESC1.MOTORPROFILE_MAD_5010_110KV,
      ESC1.MOTORPROFILE_MAD_5010_310KV, ESC1.MOTORPROFILE_MAD_5010_370KV]

/-- C19: the two variants agree on the encoding of modes.  A mode name that
both enumerations define has the same code in both; `MODE_DISABLED` is `0x00`
and `MODE_IDLE` is `0x01`; the enumerators with a code in `0x10..0x13` are
the four closed-loop modes, with exactly these codes; and the open-loop
override modes (`MODE_VABC_OVERRIDE`, `MODE_VALPHABETA_OVERRIDE`,
`MODE_VQD_OVERRIDE`, and `MODE_IQD_OVERRIDE` where defined) are the
enumerators with a code in `0x20..0x23`. -/
theorem C19_variants_agree_on_mode_codes :
    (∀ e ∈ ESC1.Mode_enum, ∀ f ∈ DRV8350RS.Mode_enum, e.1 = f.1 → e.2 = f.2)
    ∧ (("MODE_DISABLED", 0x00) ∈ ESC1.Mode_enum ∧ ("MODE_IDLE", 0x01) ∈ ESC1.Mode_enum
      ∧ ("MODE_DISABLED", 0x00) ∈ DRV8350RS.Mode_enum ∧ ("MODE_IDLE", 0x01) ∈ DRV8350RS.Mode_enum)
    ∧ (ESC1.Mode_enum.filter (fun e => decide (0x10 ≤ e.2 ∧ e.2 ≤ 0x13))
        = [("MODE_CURRENT", 0x10), ("MODE_TORQUE", 0x11), ("MODE_VELOCITY", 0x12),
            ("MODE_POSITION", 0x13)]
      ∧ DRV8350RS.Mode_enum.filter (fun e => decide (0x10 ≤ e.2 ∧ e.2 ≤ 0x13))
        = [("MODE_CURRENT", 0x10), ("MODE_TORQUE", 0x11), ("MODE_VELOCITY", 0x12),
            ("MODE_POSITION", 0x13)])
    ∧ (ESC1.Mode_enum.filter (fun e => decide (0x20 ≤ e.2 ∧ e.2 ≤ 0x23))
        = [("MODE_VABC_OVERRIDE", 0x20), ("MODE_VALPHABETA_OVERRIDE", 0x21),
            ("MODE_VQD_OVERRIDE", 0x22)]
      ∧ DRV8350RS.Mode_enum.filter (fun e => decide (0x20 ≤ e.2 ∧ e.2 ≤ 0x23))
        = [("MODE_VABC_OVERRIDE", 0x20), ("MODE_VALPHABETA_OVERRIDE", 0x21),
            ("MODE_VQD_OVERRIDE", 0x22), ("MODE_IQD_OVERRIDE", 0x23)]) := by
  decide

end Headers

end Recoil
